import Mathlib

set_option maxHeartbeats 1000000

namespace InfoHUD

/-! Shallow embedding of the infoHUD image-composition and scheduling
pipeline (image_generator.py, display_manager.py, infoHUD.py,
stock_ticker.py).  Machine text is modelled with Lean strings, font
glyph measurement is an explicit parameter, and the PIL image values
are modelled structurally. -/

/-- An RGB color triple, each channel 0..255. -/
structure RGB where
  r : Nat
  g : Nat
  b : Nat
deriving DecidableEq, Repr

/-- Glyph metrics of a loaded truetype font: the pair returned by
`ImageFont.truetype(font_path, size).getsize(text)`.  The text fitter in
image_generator.py treats the font purely as this measuring function, so the
embedding passes the metrics explicitly (width and height of a rendered
single line of text at a given integer point size). -/
structure FontMetrics where
  width : String → Nat → Nat
  height : String → Nat → Nat

/-- Loop of `fit_text_to_width` (image_generator.py lines 92..96):
`while font.getsize(text)[0] > max_width and font_size > 10: font_size -= 1`.
The recursion is structural on the size being decremented. -/
def fitWidthLoop (m : FontMetrics) (text : String) (max_width : Nat) : Nat → Nat
  | 0 => 0
  | s + 1 =>
    if m.width text (s + 1) > max_width ∧ s + 1 > 10 then
      fitWidthLoop m text max_width s
    else
      s + 1

/-- `fit_text_to_width(text, max_width, font_path, max_font_size)`
(image_generator.py lines 90..97).  Returns the text unchanged together with
the chosen font size (the font object carries only its size in this model). -/
def fit_text_to_width (m : FontMetrics) (text : String) (max_width : Nat)
    (max_font_size : Nat) : String × Nat :=
  (text, fitWidthLoop m text max_width max_font_size)

/-- One step of the Python `str.split()` tokenizer, consuming one character
from the left into a state of (current word, words to the right). -/
def splitStep (c : Char) (acc : List Char × List (List Char)) :
    List Char × List (List Char) :=
  if c.isWhitespace then
    ([], if acc.1 = [] then acc.2 else acc.1 :: acc.2)
  else
    (c :: acc.1, acc.2)

/-- Final flush of the `str.split()` state. -/
def splitFinish (acc : List Char × List (List Char)) : List (List Char) :=
  if acc.1 = [] then acc.2 else acc.1 :: acc.2

/-- Python `str.split()` with no argument on a character list: splits on runs
of whitespace and never yields empty words. -/
def splitWsChars (l : List Char) : List (List Char) :=
  splitFinish (l.foldr splitStep ([], []))

/-- Python `text.split()` (image_generator.py line 104). -/
def pySplit (s : String) : List String :=
  (splitWsChars s.data).map String.mk

/-- Python `"\n".join(lines)` (image_generator.py line 125). -/
def joinNl : List String → String
  | [] => ""
  | [l] => l
  | l :: ls => l ++ "\n" ++ joinNl ls

/-- The greedy word-wrapping pass of `fit_text_to_area` at one font size
(image_generator.py lines 107..116).  Python keeps a running `line` string;
`f"(line) (word)".strip()` equals `word` when `line` is empty (the words
coming from `text.split()` carry no surrounding whitespace) and
`line ++ " " ++ word` otherwise. -/
def testLine (line w : String) : String :=
  if line = "" then w else line ++ " " ++ w

/-- The greedy word-wrapping pass of `fit_text_to_area` at one font size
(image_generator.py lines 107..116), continued. -/
def wrapWords (m : FontMetrics) (max_width s : Nat) (line : String) :
    List String → List String
  | [] => [line]
  | w :: ws =>
    if m.width (testLine line w) s ≤ max_width then
      wrapWords m max_width s (testLine line w) ws
    else
      line :: wrapWords m max_width s w ws

/-- Total height of the wrapped lines at size `s`:
`sum(font.getsize(line)[1] for line in temp_lines)` (line 118). -/
def wrapHeight (m : FontMetrics) (s : Nat) (lines : List String) : Nat :=
  (lines.map fun l => m.height l s).sum

/-- Loop of `fit_text_to_area` (image_generator.py lines 106..123):
`while font_size > 10`, wrap at the current size, accept the first size whose
wrapped height fits, otherwise decrement.  When the loop exhausts without a
fitting size the accumulated `lines` variable is still its initial `[]`,
and the final font size is the size at which the `while` guard failed. -/
def fitAreaLoop (m : FontMetrics) (max_width max_height : Nat)
    (words : List String) : Nat → List String × Nat
  | 0 => ([], 0)
  | s + 1 =>
    if s + 1 > 10 then
      let temp_lines := wrapWords m max_width (s + 1) "" words
      if wrapHeight m (s + 1) temp_lines ≤ max_height then
        (temp_lines, s + 1)
      else
        fitAreaLoop m max_width max_height words s
    else
      ([], s + 1)

/-- `fit_text_to_area(text, max_width, max_height, font_path, max_font_size)`
(image_generator.py lines 99..125).  Returns the joined wrapped text and the
final font size. -/
def fit_text_to_area (m : FontMetrics) (text : String)
    (max_width max_height max_font_size : Nat) : String × Nat :=
  let words := pySplit text
  let r := fitAreaLoop m max_width max_height words max_font_size
  (joinNl r.1, r.2)

/-- A concrete font-metric model used for witnesses and counterexamples:
rendered width proportional to size times character count, line height equal
to the point size. -/
def demoMetrics : FontMetrics :=
  { width := fun t s => s * t.length
    height := fun _ s => s }

lemma fitWidthLoop_le (m : FontMetrics) (t : String) (mw : Nat) :
    ∀ s, fitWidthLoop m t mw s ≤ s := by
  intro s
  induction s with
  | zero => simp [fitWidthLoop]
  | succ n ih =>
    rw [fitWidthLoop]
    split
    · exact le_trans ih (Nat.le_succ n)
    · exact le_refl _

lemma fitWidthLoop_ge (m : FontMetrics) (t : String) (mw : Nat) :
    ∀ s, 10 ≤ s → 10 ≤ fitWidthLoop m t mw s := by
  intro s
  induction s with
  | zero => intro h; omega
  | succ n ih =>
    intro h
    rw [fitWidthLoop]
    split
    · next hc => exact ih (by omega)
    · exact h

lemma fitWidthLoop_fits (m : FontMetrics) (t : String) (mw : Nat) :
    ∀ s, 10 ≤ s →
      m.width t (fitWidthLoop m t mw s) ≤ mw ∨ fitWidthLoop m t mw s = 10 := by
  intro s
  induction s with
  | zero => intro h; omega
  | succ n ih =>
    intro h
    rw [fitWidthLoop]
    split
    · next hc =>
      rcases Nat.lt_or_ge 10 n with h10 | h10
      · exact ih (by omega)
      · have hn : n = 10 := by omega
        subst hn
        right
        rw [fitWidthLoop]
        split
        · next hc2 => omega
        · rfl
    · next hc =>
      rcases Decidable.not_and_iff_or_not.mp hc with hw | hs
      · left; omega
      · right; omega

/-- C3 (amended): for every font metric, text, width bound and maximum size
at least the floor 10, `fit_text_to_width` returns the original text
unchanged with a size in the interval 10..maxSize, and either the rendered
width at the returned size fits or the returned size is the floor 10. -/
theorem fit_text_to_width_spec (m : FontMetrics) (text : String)
    (max_width max_font_size : Nat) (hms : 10 ≤ max_font_size) :
    (fit_text_to_width m text max_width max_font_size).1 = text ∧
    10 ≤ (fit_text_to_width m text max_width max_font_size).2 ∧
    (fit_text_to_width m text max_width max_font_size).2 ≤ max_font_size ∧
    (m.width text (fit_text_to_width m text max_width max_font_size).2
        ≤ max_width ∨
      (fit_text_to_width m text max_width max_font_size).2 = 10) := by
  refine ⟨rfl, ?_, ?_, ?_⟩
  · exact fitWidthLoop_ge m text max_width max_font_size hms
  · exact fitWidthLoop_le m text max_width max_font_size
  · exact fitWidthLoop_fits m text max_width max_font_size hms

/-- Witness for `fit_text_to_width_spec` at a concrete input. -/
theorem fit_text_to_width_spec_witness :
    (fit_text_to_width demoMetrics "hello" 60 26).1 = "hello" ∧
    10 ≤ (fit_text_to_width demoMetrics "hello" 60 26).2 ∧
    (fit_text_to_width demoMetrics "hello" 60 26).2 ≤ 26 ∧
    (demoMetrics.width "hello" (fit_text_to_width demoMetrics "hello" 60 26).2
        ≤ 60 ∨
      (fit_text_to_width demoMetrics "hello" 60 26).2 = 10) :=
  fit_text_to_width_spec demoMetrics "hello" 60 26 (by decide)

/-- C3 counterexample: with a maximum size below the floor (here 5), the
returned size equals that maximum, which lies outside the interval
10..maxSize claimed for every input, the rendered width still overflows the
width bound, and the size is not the floor 10. -/
theorem fit_text_to_width_below_floor_counterexample :
    ¬ (10 ≤ (fit_text_to_width demoMetrics "ab" 1 5).2 ∧
        (fit_text_to_width demoMetrics "ab" 1 5).2 ≤ 5 ∧
        (demoMetrics.width "ab" (fit_text_to_width demoMetrics "ab" 1 5).2
            ≤ 1 ∨
          (fit_text_to_width demoMetrics "ab" 1 5).2 = 10)) := by
  decide

lemma foldr_splitStep_seed (l : List Char) (cur : List Char)
    (ws ext : List (List Char)) :
    l.foldr splitStep (cur, ws ++ ext) =
      ((l.foldr splitStep (cur, ws)).1, (l.foldr splitStep (cur, ws)).2 ++ ext) := by
  induction l with
  | nil => rfl
  | cons c l ih =>
    simp only [List.foldr_cons, ih, splitStep]
    split
    · split
      · simp
      · simp
    · simp

lemma splitFinish_append (q : List Char × List (List Char))
    (ext : List (List Char)) :
    splitFinish (q.1, q.2 ++ ext) = splitFinish q ++ ext := by
  obtain ⟨cur, ws⟩ := q
  by_cases hc : cur = [] <;> simp [splitFinish, hc]

lemma splitWsChars_append_ws (c : Char) (hc : c.isWhitespace = true)
    (a b : List Char) :
    splitWsChars (a ++ c :: b) = splitWsChars a ++ splitWsChars b := by
  unfold splitWsChars
  rw [List.foldr_append]
  have hstep : (c :: b).foldr splitStep ([], []) =
      ([], splitFinish (b.foldr splitStep ([], []))) := by
    simp only [List.foldr_cons, splitStep, hc, if_true, splitFinish]
  rw [hstep]
  have := foldr_splitStep_seed a [] [] (splitFinish (b.foldr splitStep ([], [])))
  simp only [List.nil_append] at this
  rw [this, splitFinish_append]

lemma foldr_splitStep_nonws (l : List Char)
    (h : ∀ c ∈ l, c.isWhitespace = false) :
    l.foldr splitStep ([], []) = (l, []) := by
  induction l with
  | nil => rfl
  | cons c l ih =>
    have hc : c.isWhitespace = false := h c (by simp)
    have ihl := ih (fun d hd => h d (by simp [hd]))
    simp only [List.foldr_cons, ihl, splitStep, hc]
    simp

lemma splitWsChars_word (l : List Char) (hne : l ≠ [])
    (h : ∀ c ∈ l, c.isWhitespace = false) :
    splitWsChars l = [l] := by
  unfold splitWsChars
  rw [foldr_splitStep_nonws l h]
  unfold splitFinish
  simp [hne]

lemma foldr_splitStep_inv (l : List Char) (cur : List Char)
    (ws : List (List Char))
    (hcur : ∀ c ∈ cur, c.isWhitespace = false)
    (hws : ∀ w ∈ ws, w ≠ [] ∧ ∀ c ∈ w, c.isWhitespace = false) :
    (∀ c ∈ (l.foldr splitStep (cur, ws)).1, c.isWhitespace = false) ∧
    (∀ w ∈ (l.foldr splitStep (cur, ws)).2,
      w ≠ [] ∧ ∀ c ∈ w, c.isWhitespace = false) := by
  induction l with
  | nil => exact ⟨hcur, hws⟩
  | cons c l ih =>
    obtain ⟨ih1, ih2⟩ := ih
    simp only [List.foldr_cons, splitStep]
    split
    · next hwsc =>
      refine ⟨by simp, ?_⟩
      split
      · exact ih2
      · next hne =>
        intro w hw
        rcases List.mem_cons.mp hw with h1 | h1
        · subst h1; exact ⟨hne, ih1⟩
        · exact ih2 w h1
    · next hwsc =>
      refine ⟨?_, ih2⟩
      intro d hd
      rcases List.mem_cons.mp hd with h1 | h1
      · subst h1
        exact Bool.eq_false_iff.mpr hwsc
      · exact ih1 d h1

/-- Every word produced by the `str.split()` model is nonempty and free of
whitespace. -/
lemma splitWsChars_good (l : List Char) :
    ∀ w ∈ splitWsChars l, w ≠ [] ∧ ∀ c ∈ w, c.isWhitespace = false := by
  have h := foldr_splitStep_inv l [] [] (by simp) (by simp)
  intro w hw
  unfold splitWsChars splitFinish at hw
  revert hw
  split
  · exact fun hw => h.2 w hw
  · next hne =>
    intro hw
    rcases List.mem_cons.mp hw with h1 | h1
    · subst h1; exact ⟨hne, h.1⟩
    · exact h.2 w h1

lemma string_mk_data (s : String) : String.mk s.data = s := rfl

/-- A word as produced by `text.split()`: nonempty, no whitespace inside. -/
def goodWord (w : String) : Prop :=
  w.data ≠ [] ∧ ∀ c ∈ w.data, c.isWhitespace = false

lemma pySplit_good (s : String) : ∀ w ∈ pySplit s, goodWord w := by
  intro w hw
  unfold pySplit at hw
  rcases List.mem_map.mp hw with ⟨l, hl, hlw⟩
  obtain ⟨hne, hnw⟩ := splitWsChars_good s.data l hl
  subst hlw
  exact ⟨hne, hnw⟩

lemma pySplit_word (w : String) (hw : goodWord w) : pySplit w = [w] := by
  unfold pySplit
  rw [splitWsChars_word w.data hw.1 hw.2]
  simp [string_mk_data]

lemma pySplit_append_ws (sep : String) (c : Char) (hsep : sep.data = [c])
    (hc : c.isWhitespace = true) (a b : String) :
    pySplit (a ++ sep ++ b) = pySplit a ++ pySplit b := by
  unfold pySplit
  have hdata : (a ++ sep ++ b).data = a.data ++ c :: b.data := by
    simp [String.data_append, hsep]
  rw [hdata, splitWsChars_append_ws c hc a.data b.data]
  simp

lemma wrapWords_ne_nil (m : FontMetrics) (mw s : Nat) (line : String)
    (ws : List String) : wrapWords m mw s line ws ≠ [] := by
  cases ws with
  | nil => simp [wrapWords]
  | cons w rest =>
    rw [wrapWords]
    split
    · exact wrapWords_ne_nil m mw s (testLine line w) rest
    · simp

lemma joinNl_cons (x : String) (l : List String) (hl : l ≠ []) :
    joinNl (x :: l) = x ++ "\n" ++ joinNl l := by
  cases l with
  | nil => exact absurd rfl hl
  | cons y ys => rfl

lemma pySplit_step_line (line w : String) (hw : goodWord w) :
    pySplit (testLine line w) = pySplit line ++ [w] := by
  unfold testLine
  split
  · next hline =>
    subst hline
    rw [pySplit_word w hw]
    rfl
  · rw [pySplit_append_ws " " ' ' rfl (by decide) line w, pySplit_word w hw]

/-- The greedy wrapping pass loses no word and invents none: joining the
wrapped lines and re-splitting yields the running line followed by exactly
the words that were wrapped. -/
lemma wrapWords_words (m : FontMetrics) (mw s : Nat) (ws : List String)
    (hgood : ∀ w ∈ ws, goodWord w) :
    ∀ line, pySplit (joinNl (wrapWords m mw s line ws)) = pySplit line ++ ws := by
  induction ws with
  | nil =>
    intro line
    simp [wrapWords, joinNl]
  | cons w rest ih =>
    intro line
    have hw : goodWord w := hgood w (by simp)
    have hrest : ∀ v ∈ rest, goodWord v := fun v hv => hgood v (by simp [hv])
    rw [wrapWords]
    split
    · rw [ih hrest (testLine line w), pySplit_step_line line w hw]
      simp
    · rw [joinNl_cons line _ (wrapWords_ne_nil m mw s w rest)]
      rw [pySplit_append_ws "\n" '\n' rfl (by decide) line
        (joinNl (wrapWords m mw s w rest))]
      rw [ih hrest w, pySplit_word w hw]
      simp

lemma fitAreaLoop_success (m : FontMetrics) (mw mh : Nat) (words : List String) :
    ∀ s k, 10 < k → k ≤ s →
      wrapHeight m k (wrapWords m mw k "" words) ≤ mh →
      ∃ k', (fitAreaLoop m mw mh words s =
          (wrapWords m mw k' "" words, k')) ∧ 10 < k' ∧ k' ≤ s := by
  intro s
  induction s with
  | zero => intro k hk hks _; omega
  | succ n ih =>
    intro k hk hks hfit
    rw [fitAreaLoop]
    have h10 : n + 1 > 10 := by omega
    simp only [if_pos h10]
    split
    · exact ⟨n + 1, rfl, by omega, le_refl _⟩
    · next hbad =>
      have hkn : k ≤ n := by
        rcases Nat.lt_or_ge k (n + 1) with h | h
        · omega
        · have : k = n + 1 := by omega
          subst this
          exact absurd hfit hbad
      obtain ⟨k', h1, h2, h3⟩ := ih k hk hkn hfit
      exact ⟨k', h1, h2, by omega⟩

/-- C5 (amended): whenever some tested size in the loop range (strictly above
the floor 10 and at most maxSize) satisfies the height bound,
`fit_text_to_area` never splits a whitespace-delimited word across lines and
preserves the word sequence: re-splitting the wrapped output on whitespace
(the inserted line breaks are whitespace) yields exactly the word sequence of
the input.  When no tested size fits, the function instead returns the empty
string and the words are lost (see the counterexample). -/
theorem fit_text_to_area_words (m : FontMetrics) (text : String)
    (max_width max_height max_font_size k : Nat)
    (hk : 10 < k) (hkle : k ≤ max_font_size)
    (hfit : wrapHeight m k (wrapWords m max_width k "" (pySplit text)) ≤
      max_height) :
    pySplit (fit_text_to_area m text max_width max_height max_font_size).1 =
      pySplit text := by
  obtain ⟨k', hloop, _, _⟩ :=
    fitAreaLoop_success m max_width max_height (pySplit text) max_font_size k
      hk hkle hfit
  show pySplit
      (joinNl (fitAreaLoop m max_width max_height (pySplit text)
        max_font_size).1) = pySplit text
  rw [hloop]
  have := wrapWords_words m max_width k' (pySplit text)
    (pySplit_good text) ""
  simpa using this

/-- Witness for `fit_text_to_area_words` at a concrete input. -/
theorem fit_text_to_area_words_witness :
    pySplit (fit_text_to_area demoMetrics "ab cd" 1000 100 12).1 =
      pySplit "ab cd" :=
  fit_text_to_area_words demoMetrics "ab cd" 1000 100 12 12 (by decide)
    (by decide) (by decide)

/-- C5 counterexample: when no tested size satisfies the height bound (here
the height bound is 0), the returned wrapped text is the empty string, whose
word sequence differs from that of the input text. -/
theorem fit_text_to_area_words_counterexample :
    ¬ pySplit (fit_text_to_area demoMetrics "a b" 1000 0 12).1 =
        pySplit "a b" := by
  decide

/-- C4: evaluating `fit_text_to_area` at an input where no tested size
satisfies the height bound.  The loop guard `while font_size > 10` never
tests the floor size 10 itself and the accumulated `lines` list keeps its
initial value `[]`, so the function returns the empty string at size 10
instead of the floor-size wrapping of the text. -/
theorem fit_text_to_area_exhausted_returns_empty :
    fit_text_to_area demoMetrics "hello world" 1000 0 12 = ("", 10) := by
  decide

/-! Color quantizer: `convert_to_6color` (image_generator.py lines 55..74). -/

def BLACK : RGB := ⟨0, 0, 0⟩
def WHITE : RGB := ⟨255, 255, 255⟩
def YELLOW : RGB := ⟨255, 255, 0⟩
def RED : RGB := ⟨255, 0, 0⟩
def BLUE : RGB := ⟨0, 0, 255⟩
def GREEN : RGB := ⟨0, 255, 0⟩

/-- The six meaningful palette entries, in the order written by
`pal_image.putpalette` (image_generator.py lines 61..67). -/
def sixColors : List RGB := [BLACK, WHITE, YELLOW, RED, BLUE, GREEN]

/-- The palette contents: the six colors followed by 250 duplicate-black
filler entries, `+ [0, 0, 0] * 250` (line 68), 256 entries in all. -/
def palette : List RGB := sixColors ++ List.replicate 250 BLACK

/-- Squared euclidean distance between two colors: the nearest-color metric
applied by PIL `Image.quantize` against an explicit palette image. -/
def distSq (p q : RGB) : Nat :=
  ((p.r : Int) - q.r).natAbs ^ 2 + ((p.g : Int) - q.g).natAbs ^ 2 +
    ((p.b : Int) - q.b).natAbs ^ 2

/-- Nearest-palette scan over the remaining palette entries, where `i` is the
palette position of the head of the list and `best` the incumbent
(index, distance) pair.  A strictly smaller distance is required to replace
the incumbent, so among equidistant entries the earliest palette index wins
(a filler black can never displace the meaningful black at index 0). -/
def nearestAux (p : RGB) : List RGB → Nat → Nat × Nat → Nat × Nat
  | [], _, best => best
  | c :: cs, i, best =>
    if distSq p c < best.2 then nearestAux p cs (i + 1) (i, distSq p c)
    else nearestAux p cs (i + 1) best

/-- Palette index of the nearest palette entry to `p`; the scan is seeded
with the palette head (black, index 0). -/
def nearestIdx (p : RGB) : Nat :=
  (nearestAux p (palette.drop 1) 1 (0, distSq p BLACK)).1

/-- `convert_to_6color(image)` (image_generator.py lines 55..74): every pixel
of the RGB raster is replaced by its nearest entry of the 256-entry palette.
The raster is a list of pixel rows. -/
def convert_to_6color (img : List (List RGB)) : List (List RGB) :=
  img.map fun row => row.map fun p => palette.getD (nearestIdx p) BLACK

lemma nearestAux_snd_le (p : RGB) :
    ∀ (l : List RGB) (i : Nat) (best : Nat × Nat),
      (nearestAux p l i best).2 ≤ best.2 := by
  intro l
  induction l with
  | nil => intro i best; exact le_refl _
  | cons c cs ih =>
    intro i best
    rw [nearestAux]
    split
    · next h => exact le_trans (ih (i + 1) (i, distSq p c)) (le_of_lt h)
    · exact ih (i + 1) best

lemma nearestAux_fst_lt (p : RGB) :
    ∀ (l : List RGB) (i : Nat) (best : Nat × Nat) (bound : Nat),
      best.1 < bound → i + l.length ≤ bound →
      (nearestAux p l i best).1 < bound := by
  intro l
  induction l with
  | nil => intro i best bound h _; exact h
  | cons c cs ih =>
    intro i best bound hb hi
    rw [nearestAux]
    simp only [List.length_cons] at hi
    split
    · exact ih (i + 1) (i, distSq p c) bound (by omega) (by omega)
    · exact ih (i + 1) best bound hb (by omega)

lemma nearestAux_replicate (p : RGB) (n : Nat) :
    ∀ (i : Nat) (best : Nat × Nat), best.2 ≤ distSq p BLACK →
      nearestAux p (List.replicate n BLACK) i best = best := by
  induction n with
  | zero => intro i best _; rfl
  | succ n ih =>
    intro i best h
    rw [List.replicate_succ, nearestAux]
    split
    · next hlt => omega
    · exact ih (i + 1) best h

lemma nearestAux_append (p : RGB) :
    ∀ (xs ys : List RGB) (i : Nat) (best : Nat × Nat),
      nearestAux p (xs ++ ys) i best =
        nearestAux p ys (i + xs.length) (nearestAux p xs i best) := by
  intro xs
  induction xs with
  | nil => intro ys i best; simp [nearestAux]
  | cons c cs ih =>
    intro ys i best
    rw [List.cons_append, nearestAux, nearestAux]
    have harith : i + 1 + cs.length = i + (c :: cs).length := by
      simp [List.length_cons]; omega
    split
    · rw [ih ys (i + 1) (i, distSq p c), harith]
    · rw [ih ys (i + 1) best, harith]

/-- The five non-black meaningful palette entries following the head. -/
def fiveColors : List RGB := [WHITE, YELLOW, RED, BLUE, GREEN]

/-- The quantizer always selects one of the six meaningful entries: a filler
black at index 6 or beyond is equidistant with the black at index 0 and thus
never replaces the incumbent. -/
lemma nearestIdx_lt_six (p : RGB) : nearestIdx p < 6 := by
  have hdrop : palette.drop 1 = fiveColors ++ List.replicate 250 BLACK := rfl
  unfold nearestIdx
  rw [hdrop, nearestAux_append]
  have hq2 : (nearestAux p fiveColors 1 (0, distSq p BLACK)).2 ≤
      distSq p BLACK :=
    nearestAux_snd_le p fiveColors 1 (0, distSq p BLACK)
  rw [nearestAux_replicate p 250 _ _ hq2]
  exact nearestAux_fst_lt p fiveColors 1 (0, distSq p BLACK) 6
    (by omega) (by simp [fiveColors])

/-- C6: the quantizer output has exactly the dimensions of the input (same
row count and same length for each row), the palette is the six meaningful
colors black, white, yellow, red, blue, green in that order followed by
black filler entries up to the 256-entry capacity, and every output pixel is
one of the six meaningful colors. -/
theorem convert_to_6color_spec (img : List (List RGB)) :
    (convert_to_6color img).length = img.length ∧
    (convert_to_6color img).map List.length = img.map List.length ∧
    palette = sixColors ++ List.replicate 250 BLACK ∧
    ∀ row ∈ convert_to_6color img, ∀ px ∈ row, px ∈ sixColors := by
  refine ⟨by simp [convert_to_6color], ?_, rfl, ?_⟩
  · simp [convert_to_6color, List.map_map, Function.comp]
  · intro row hrow px hpx
    unfold convert_to_6color at hrow
    rcases List.mem_map.mp hrow with ⟨r0, _, hr⟩
    subst hr
    rcases List.mem_map.mp hpx with ⟨p, _, hp⟩
    subst hp
    have hlt : ∀ i, i < 6 → palette.getD i BLACK ∈ sixColors := by decide
    exact hlt _ (nearestIdx_lt_six p)

/-- Witness for `convert_to_6color_spec` at a concrete one-pixel image. -/
theorem convert_to_6color_spec_witness :
    (convert_to_6color [[⟨10, 200, 40⟩]]).length = 1 ∧
    (convert_to_6color [[⟨10, 200, 40⟩]]).map List.length =
      [[(⟨10, 200, 40⟩ : RGB)]].map List.length ∧
    palette = sixColors ++ List.replicate 250 BLACK ∧
    ∀ row ∈ convert_to_6color [[⟨10, 200, 40⟩]], ∀ px ∈ row,
      px ∈ sixColors :=
  convert_to_6color_spec [[⟨10, 200, 40⟩]]

/-! Debug frame archive: `cleanup_old_images` and the file-system effect of
`save_image` (image_generator.py lines 46..53 and 76..88).  The archive
directory listing is modelled as the list of file names in `TMP_DIR`; a real
directory listing never contains a duplicate name. -/

/-- `MAX_IMAGES = 10` (image_generator.py line 37). -/
def MAX_IMAGES : Nat := 10

/-- Python `f.startswith(t)` on character lists. -/
def charsStartWith : List Char → List Char → Bool
  | _, [] => true
  | [], _ :: _ => false
  | c :: cs, d :: ds => c == d && charsStartWith cs ds

/-- Python `f.startswith(image_type)` (image_generator.py line 48). -/
def strStartsWith (s t : String) : Bool :=
  charsStartWith s.data t.data

/-- Lexicographic (code-point) comparison of character lists, the Python
string ordering used by `sorted`. -/
def charsLt : List Char → List Char → Bool
  | [], [] => false
  | [], _ :: _ => true
  | _ :: _, [] => false
  | c :: cs, d :: ds =>
    if c.toNat < d.toNat then true
    else if d.toNat < c.toNat then false
    else charsLt cs ds

/-- Python `s < t` on strings. -/
def strLt (s t : String) : Bool :=
  charsLt s.data t.data

/-- Insertion step of a descending sort on names, with strict comparison so
equal names keep their relative position. -/
def insertDesc (x : String) : List String → List String
  | [] => [x]
  | y :: ys => if strLt y x then x :: y :: ys else y :: insertDesc x ys

/-- `sorted(names, reverse=True)` (image_generator.py line 48): file names
in descending lexicographic order, which for the fixed-width timestamp names
is most-recent first. -/
def sortDesc (l : List String) : List String :=
  l.foldr insertDesc []

/-- `cleanup_old_images(image_type)` (image_generator.py lines 46..53):
sorts the names with the given kind as name beginning in descending order and
removes every such file past the first `MAX_IMAGES`. -/
def cleanup_old_images (image_type : String) (files : List String) :
    List String :=
  let images := sortDesc (files.filter fun f => strStartsWith f image_type)
  let doomed := images.drop MAX_IMAGES
  files.filter fun f => !(doomed.contains f)

/-- The file-system effect of `save_image(image, image_type)`
(image_generator.py lines 76..88): write the frame to
`(image_type)_(timestamp).png` (an existing file of the same name is
overwritten), then prune with `cleanup_old_images`. -/
def save_image_files (image_type timestamp : String) (files : List String) :
    List String :=
  let name := image_type ++ "_" ++ timestamp ++ ".png"
  let files' := if files.contains name then files else files ++ [name]
  cleanup_old_images image_type files'

/-- A sequence of `store(frame, "stock")` calls at the given (increasing)
timestamps, starting from an empty archive directory. -/
def storeStockSeq (stamps : List String) : List String :=
  stamps.foldl (fun fs p => save_image_files "stock" p fs) []

lemma insertDesc_perm (x : String) (l : List String) :
    List.Perm (insertDesc x l) (x :: l) := by
  induction l with
  | nil => exact List.Perm.refl _
  | cons y ys ih =>
    rw [insertDesc]
    split
    · exact List.Perm.refl _
    · exact List.Perm.trans (List.Perm.cons y ih) (List.Perm.swap x y ys)

lemma sortDesc_perm (l : List String) : List.Perm (sortDesc l) l := by
  induction l with
  | nil => exact List.Perm.refl _
  | cons x xs ih =>
    have h1 : sortDesc (x :: xs) = insertDesc x (sortDesc xs) := rfl
    rw [h1]
    exact List.Perm.trans (insertDesc_perm x (sortDesc xs))
      (List.Perm.cons x ih)

/-- C9: storing a frame leaves, among the files whose name begins with the
stored kind, exactly the first `MAX_IMAGES` names of the descending
(most-recent-first) name ordering of the directory after the write — hence
at most 10 such files — and 15 sequential stock stores starting from an
empty directory retain exactly the 10 most recent stock files. -/
theorem save_image_files_spec (image_type timestamp : String)
    (files : List String) (hnd : files.Nodup) :
    (∀ f, f ∈ (save_image_files image_type timestamp files).filter
          (fun g => strStartsWith g image_type) ↔
        f ∈ (sortDesc ((if files.contains
              (image_type ++ "_" ++ timestamp ++ ".png") then files
            else files ++ [image_type ++ "_" ++ timestamp ++ ".png"]).filter
          (fun g => strStartsWith g image_type))).take MAX_IMAGES) ∧
    ((save_image_files image_type timestamp files).filter
        (fun g => strStartsWith g image_type)).length ≤ MAX_IMAGES ∧
    storeStockSeq ["01", "02", "03", "04", "05", "06", "07", "08", "09",
        "10", "11", "12", "13", "14", "15"] =
      ["stock_06.png", "stock_07.png", "stock_08.png", "stock_09.png",
        "stock_10.png", "stock_11.png", "stock_12.png", "stock_13.png",
        "stock_14.png", "stock_15.png"] := by
  have hscenario : storeStockSeq ["01", "02", "03", "04", "05", "06", "07",
      "08", "09", "10", "11", "12", "13", "14", "15"] =
      ["stock_06.png", "stock_07.png", "stock_08.png", "stock_09.png",
        "stock_10.png", "stock_11.png", "stock_12.png", "stock_13.png",
        "stock_14.png", "stock_15.png"] := by decide
  set name := image_type ++ "_" ++ timestamp ++ ".png" with hname
  set files' := if files.contains name then files else files ++ [name]
    with hfiles'
  have hnd' : files'.Nodup := by
    rw [hfiles']
    split
    · exact hnd
    · next hc =>
      rw [List.nodup_append]
      refine ⟨hnd, List.nodup_singleton name, ?_⟩
      intro a ha hmem
      rcases List.mem_singleton.mp hmem with rfl
      exact hc (List.elem_iff.mpr ha)
  set P : String → Bool := fun g => strStartsWith g image_type with hP
  set K := files'.filter P with hK
  set sorted := sortDesc K with hsorted
  set doomed := sorted.drop MAX_IMAGES with hdoomed
  have hperm : List.Perm sorted K := sortDesc_perm K
  have hKnd : K.Nodup := hnd'.filter P
  have hsortnd : sorted.Nodup := hperm.nodup_iff.mpr hKnd
  have hsplit : sorted.take MAX_IMAGES ++ doomed = sorted :=
    List.take_append_drop _ _
  have hdisj : ∀ f ∈ sorted.take MAX_IMAGES, f ∉ doomed := by
    have h2 := hsortnd
    rw [← hsplit, List.nodup_append] at h2
    exact h2.2.2
  have hres : save_image_files image_type timestamp files =
      files'.filter fun f => !(doomed.contains f) := rfl
  have hmain : ∀ f,
      f ∈ (save_image_files image_type timestamp files).filter P ↔
        f ∈ sorted.take MAX_IMAGES := by
    intro f
    rw [hres]
    constructor
    · intro hmem
      have h1 := List.mem_filter.mp hmem
      have h2 := List.mem_filter.mp h1.1
      have hfK : f ∈ K := List.mem_filter.mpr ⟨h2.1, h1.2⟩
      have hfs : f ∈ sorted := hperm.mem_iff.mpr hfK
      have hfnd : f ∉ doomed := by
        intro hd
        have hcont : doomed.contains f = true := List.elem_iff.mpr hd
        have hq := h2.2
        rw [hcont] at hq
        simp at hq
      rw [← hsplit] at hfs
      rcases List.mem_append.mp hfs with h | h
      · exact h
      · exact absurd h hfnd
    · intro htake
      have hfs : f ∈ sorted := by
        rw [← hsplit]
        exact List.mem_append_left _ htake
      have hfK : f ∈ K := hperm.mem_iff.mp hfs
      have h2 := List.mem_filter.mp hfK
      refine List.mem_filter.mpr ⟨List.mem_filter.mpr ⟨h2.1, ?_⟩, h2.2⟩
      have hcf : doomed.contains f = false := by
        cases hc : doomed.contains f
        · rfl
        · exact absurd (List.elem_iff.mp hc) (hdisj f htake)
      rw [hcf]
      rfl
  refine ⟨hmain, ?_, hscenario⟩
  have hrnd : ((save_image_files image_type timestamp files).filter P).Nodup :=
    (hnd'.filter _).filter P
  have hsub : (save_image_files image_type timestamp files).filter P ⊆
      sorted.take MAX_IMAGES := fun f hf => (hmain f).mp hf
  have hlen := (hrnd.subperm hsub).length_le
  have : (sorted.take MAX_IMAGES).length ≤ MAX_IMAGES := by
    rw [List.length_take]
    omega
  omega

/-- Witness for `save_image_files_spec` at a concrete directory listing. -/
theorem save_image_files_spec_witness :
    (∀ f, f ∈ (save_image_files "stock" "02" ["stock_01.png",
          "news_01.png"]).filter (fun g => strStartsWith g "stock") ↔
        f ∈ (sortDesc ((if (["stock_01.png", "news_01.png"] :
              List String).contains ("stock" ++ "_" ++ "02" ++ ".png") then
            ["stock_01.png", "news_01.png"]
          else ["stock_01.png", "news_01.png"] ++
            ["stock" ++ "_" ++ "02" ++ ".png"]).filter
          (fun g => strStartsWith g "stock"))).take MAX_IMAGES) ∧
    ((save_image_files "stock" "02" ["stock_01.png", "news_01.png"]).filter
        (fun g => strStartsWith g "stock")).length ≤ MAX_IMAGES ∧
    storeStockSeq ["01", "02", "03", "04", "05", "06", "07", "08", "09",
        "10", "11", "12", "13", "14", "15"] =
      ["stock_06.png", "stock_07.png", "stock_08.png", "stock_09.png",
        "stock_10.png", "stock_11.png", "stock_12.png", "stock_13.png",
        "stock_14.png", "stock_15.png"] :=
  save_image_files_spec "stock" "02" ["stock_01.png", "news_01.png"]
    (by decide)

/-! Stock data producer: `fetch_stock_data` (stock_ticker.py lines 28..80). -/

/-- Python exception kinds raised by the embedded code paths. -/
inductive PyErr where
  | valueError
  | attributeError
  | indexError
  | nameError
  | fetchError
  | unidentifiedImageError
  | typeError
deriving DecidableEq, Repr

deriving instance DecidableEq for Except

/-- `STOCK_SYMBOLS` (stock_ticker.py line 26). -/
def STOCK_SYMBOLS : List String :=
  ["RDDT", "TSLA", "MSFT", "NVDA", "TSM", "AMZN", "METV", "META", "CHPT",
    "TLRY"]

/-- The price field of a stock record: a number, or the literal string
"No Data" placed by the per-symbol placeholder (stock_ticker.py line 70).
Monetary values are carried in cents; the source rounds its floats to two
decimals. -/
inductive PriceVal where
  | num (cents : Int)
  | noData
deriving DecidableEq, Repr

/-- One entry of the list returned by `fetch_stock_data`
(stock_ticker.py lines 57..63 and 68..74). -/
structure StockRec where
  symbol : String
  current_price : PriceVal
  change : Int
  percent_change : Int
  direction : String
deriving DecidableEq, Repr

/-- Outcome of the remote per-symbol fetch `ticker.yahoo_api_price(...)`: an
exception while constructing the ticker or fetching, a response with no
usable close column (the `else` of line 46), or the latest and previous
closing prices. -/
inductive QuoteResult where
  | err
  | noClose
  | ok (price prevClose : Int)
deriving DecidableEq, Repr

/-- Record built for a symbol with close data (stock_ticker.py lines
47..63): change is latest minus previous close, percent change is relative
to the previous close when positive, direction is an up or down arrow. -/
def mkStockRec (symbol : String) (price prevClose : Int) : StockRec :=
  { symbol := symbol
    current_price := .num price
    change := price - prevClose
    percent_change :=
      if prevClose > 0 then (price - prevClose) * 100 / prevClose else 0
    direction := if price - prevClose > 0 then "▲" else "▼" }

/-- Placeholder record appended when the response has no close data
(stock_ticker.py lines 68..74). -/
def placeholderRec (symbol : String) : StockRec :=
  { symbol := symbol
    current_price := .noData
    change := 0
    percent_change := 0
    direction := "" }

/-- The `for symbol in STOCK_SYMBOLS` loop (stock_ticker.py lines 32..74).
The whole loop runs inside one `try`, so an exception for any symbol aborts
the loop, discarding every record accumulated so far. -/
def fetchLoop (quotes : String → QuoteResult) :
    List String → Except PyErr (List StockRec)
  | [] => .ok []
  | s :: rest =>
    match quotes s with
    | .err => .error .fetchError
    | .noClose => (fetchLoop quotes rest).map (placeholderRec s :: ·)
    | .ok p q => (fetchLoop quotes rest).map (mkStockRec s p q :: ·)

/-- `fetch_stock_data()` (stock_ticker.py lines 28..80): the loop result, or
the empty list when the surrounding `except Exception` fires (line 78..80). -/
def fetch_stock_data (quotes : String → QuoteResult) : List StockRec :=
  match fetchLoop quotes STOCK_SYMBOLS with
  | .ok recs => recs
  | .error _ => []

/-- The record produced for one symbol when no exception occurs anywhere. -/
def recOf (quotes : String → QuoteResult) (s : String) : StockRec :=
  match quotes s with
  | .ok p q => mkStockRec s p q
  | _ => placeholderRec s

lemma fetchLoop_ok (quotes : String → QuoteResult) :
    ∀ syms : List String, (∀ s ∈ syms, quotes s ≠ .err) →
      fetchLoop quotes syms = .ok (syms.map (recOf quotes)) := by
  intro syms
  induction syms with
  | nil => intro _; rfl
  | cons s rest ih =>
    intro h
    have hs : quotes s ≠ .err := h s (by simp)
    have hrest := ih fun v hv => h v (by simp [hv])
    rw [fetchLoop]
    cases hq : quotes s with
    | err => exact absurd hq hs
    | noClose => rw [hrest]; simp [recOf, hq, Except.map]
    | ok p q => rw [hrest]; simp [recOf, hq, Except.map]

lemma fetchLoop_err (quotes : String → QuoteResult) :
    ∀ syms : List String, (∃ s ∈ syms, quotes s = .err) →
      fetchLoop quotes syms = .error .fetchError := by
  intro syms
  induction syms with
  | nil => intro h; simp at h
  | cons s rest ih =>
    intro h
    rw [fetchLoop]
    cases hq : quotes s with
    | err => rfl
    | noClose =>
      rcases h with ⟨v, hv, hverr⟩
      rcases List.mem_cons.mp hv with rfl | hv2
      · exact absurd hq (by rw [hverr]; intro hw; cases hw)
      · rw [ih ⟨v, hv2, hverr⟩]; rfl
    | ok p q =>
      rcases h with ⟨v, hv, hverr⟩
      rcases List.mem_cons.mp hv with rfl | hv2
      · rw [hq] at hverr; cases hverr
      · rw [ih ⟨v, hv2, hverr⟩]; rfl

/-- C8 (amended): when no configured symbol raises during its fetch, the
producer returns one record per configured symbol in order, a symbol whose
response lacks close data appearing as a placeholder with price "No Data";
and the result is the empty sequence exactly when some symbol raises — in
which case every symbol, including successfully fetched ones, is discarded
by the single loop-wide exception handler. -/
theorem fetch_stock_data_spec (quotes : String → QuoteResult) :
    ((∀ s ∈ STOCK_SYMBOLS, quotes s ≠ .err) →
      fetch_stock_data quotes = STOCK_SYMBOLS.map (recOf quotes)) ∧
    (fetch_stock_data quotes = [] ↔ ∃ s ∈ STOCK_SYMBOLS, quotes s = .err) := by
  constructor
  · intro h
    unfold fetch_stock_data
    rw [fetchLoop_ok quotes STOCK_SYMBOLS h]
  · constructor
    · intro hempty
      by_contra hno
      push_neg at hno
      have := fetchLoop_ok quotes STOCK_SYMBOLS hno
      unfold fetch_stock_data at hempty
      rw [this] at hempty
      simp [STOCK_SYMBOLS] at hempty
    · intro hex
      unfold fetch_stock_data
      rw [fetchLoop_err quotes STOCK_SYMBOLS hex]

/-- A quote oracle with no usable close column for any symbol. -/
def allNoClose : String → QuoteResult := fun _ => .noClose

/-- Witness for `fetch_stock_data_spec`: with every response lacking close
data, the result is the full placeholder list, one per symbol. -/
theorem fetch_stock_data_spec_witness :
    fetch_stock_data allNoClose = STOCK_SYMBOLS.map (recOf allNoClose) :=
  (fetch_stock_data_spec allNoClose).1 (by decide)

/-- A quote oracle where the first configured symbol succeeds and the second
raises during its fetch. -/
def errQuotes : String → QuoteResult :=
  fun s => if s = "RDDT" then .ok 1000 900 else .err

/-- C8 counterexample: one symbol (TSLA) raising empties the whole result,
even though RDDT fetched successfully — RDDT is omitted rather than kept,
and the empty sequence is returned without a total failure. -/
theorem fetch_stock_data_counterexample :
    fetch_stock_data errQuotes = [] ∧
    errQuotes "RDDT" = .ok 1000 900 ∧
    ¬ ∃ r ∈ fetch_stock_data errQuotes, r.symbol = "RDDT" := by
  decide

/-! Frame compositor and display pipeline (display_manager.py), the per-mode
image generators (image_generator.py), and the scheduling loop (infoHUD.py).
A PIL image value is modelled as the tree of the operations that built it;
draw calls record the drawn text and color and never change dimensions,
exactly as in PIL. -/

/-- One draw call on an image. -/
inductive DrawOp where
  | text (x y : Int) (s : String) (size : Nat) (color : RGB)
  | rect (x0 y0 x1 y1 : Int) (fill : Bool) (color : RGB)
deriving DecidableEq, Repr

/-- A PIL image value, by construction.  `raw` is an image decoded from
external bytes (photo, thumbnail, rasterized SVG icon); `exifT` is
`ImageOps.exif_transpose`, always followed by a `resize` in this pipeline,
which fixes the final dimensions; `rot90` is `rotate(-90, expand=True)`;
`quantize` is `convert_to_6color`. -/
inductive Img where
  | new (w h : Nat) (background : RGB)
  | raw (id : Nat) (w h : Nat)
  | exifT (i : Img)
  | resize (i : Img) (w h : Nat)
  | paste (base over : Img) (x y : Int)
  | rot90 (i : Img)
  | quantize (i : Img)
  | draw (i : Img) (op : DrawOp)
deriving DecidableEq, Repr

/-- Width and height of an image value. -/
def dims : Img → Nat × Nat
  | .new w h _ => (w, h)
  | .raw _ w h => (w, h)
  | .exifT i => dims i
  | .resize _ w h => (w, h)
  | .paste b _ _ _ => dims b
  | .rot90 i => ((dims i).2, (dims i).1)
  | .quantize i => dims i
  | .draw i _ => dims i

/-- Whether 6-color quantization was applied anywhere while building the
image. -/
def hasQuant : Img → Bool
  | .new _ _ _ => false
  | .raw _ _ _ => false
  | .exifT i => hasQuant i
  | .resize i _ _ => hasQuant i
  | .paste b o _ _ => hasQuant b || hasQuant o
  | .rot90 i => hasQuant i
  | .quantize _ => true
  | .draw i _ => hasQuant i

/-- Whether the image value itself is the output of quantization. -/
def isQuantRoot : Img → Bool
  | .quantize _ => true
  | _ => false

/-- Display constants (display_manager.py lines 42..52, image_generator.py
lines 30..40).  The two modules declare different icon sizes. -/
def DISPLAY_WIDTH : Nat := 600

/-- Landscape height of the panel canvas. -/
def DISPLAY_HEIGHT : Nat := 400

/-- Header band height before rotation. -/
def HEADER_HEIGHT : Nat := 62

/-- Body band height, the remaining canvas below the header. -/
def BODY_HEIGHT : Nat := DISPLAY_HEIGHT - HEADER_HEIGHT

/-- Body-content raster width used by the generators. -/
def IMG_WIDTH : Nat := 600

/-- Body-content raster height used by the generators. -/
def IMG_HEIGHT : Nat := 338

/-- Base font size of image_generator.py. -/
def FONT_SIZE : Nat := 26

/-- Header font size of display_manager.py. -/
def HEADER_FONT_SIZE : Nat := 24

/-- Icon size in display_manager.py. -/
def ICON_SIZE_DM : Nat := 48

/-- Icon size in image_generator.py. -/
def ICON_SIZE_IG : Nat := 40

/-- The image value returned by `save_image` (image_generator.py lines
76..88): the frame is passed through `convert_to_6color` before being saved
and returned, so on structural image values it gains a `quantize` node. -/
def save_image_img (i : Img) : Img := .quantize i

/-- The `current` entry of a weather record as the header reads it; a `none`
field is an absent key, read through `.get(key, default)`. -/
structure CurrentW where
  condition : Option String
  temperature : Option String
deriving DecidableEq, Repr

/-- The value stored under the `current` key: a well-shaped mapping, or a
malformed value (for example from a corrupted weather cache file, which
`get_weather` deserializes with `json.load` and passes along unchecked);
calling `.get` on a malformed value raises `AttributeError`. -/
inductive CurrentVal where
  | dict (c : CurrentW)
  | nonDict
deriving DecidableEq, Repr

/-- One forecast entry (weather_fetcher.py lines 72..80); absent keys are
`none` and are read through `day.get(key, default)`. -/
structure DailyForecast where
  date : Option String
  high_temp : Option String
  low_temp : Option String
  sunrise : Option String
  sunset : Option String
  moon_phase : Option String
deriving DecidableEq, Repr

/-- The value stored under the `forecast` key: a list of forecast entries,
or a malformed value without a length (for example a number or null from a
corrupted weather cache file); calling `len()` on a malformed value raises
`TypeError`. -/
inductive ForecastVal where
  | list (fc : List DailyForecast)
  | nonSized
deriving DecidableEq, Repr

/-- A weather record dictionary with its `current` and `forecast` keys, each
possibly absent. -/
structure WeatherDict where
  current : Option CurrentVal
  forecast : Option ForecastVal
deriving DecidableEq, Repr

/-- Outcome of downloading and decoding an image over HTTP
(image_generator.py lines 224..227): the request or status check raised a
`requests.exceptions.RequestException` (which line 229 catches), the request
succeeded but the body is not a decodable image so `Image.open` raises
`UnidentifiedImageError` or `OSError` (which line 229 does NOT catch), or a
decoded RGB image. -/
inductive HttpImage where
  | requestError
  | badBytes
  | image (id w h : Nat)
deriving DecidableEq, Repr

/-- Ambient inputs of the renderers: the icon files on disk (name to raster
identity; `none` when the file is missing or the SVG conversion fails, so
`_load_svg_icon` returns `None`), the network (url to thumbnail download
outcome), the wall-clock date and time strings, and the font glyph
metrics. -/
structure Sys where
  icons : String → Option Nat
  http : String → HttpImage
  dateStr : String
  timeStr : String
  metrics : FontMetrics

/-- `_load_svg_icon` (display_manager.py lines 163..171, image_generator.py
lines 127..136): a rasterized square icon image, or `None`. -/
def load_svg_icon (sys : Sys) (size : Nat) (name : String) : Option Img :=
  (sys.icons name).map fun id => .raw id size size

/-- `_get_weather_icon_path(condition)` (display_manager.py lines 144..161):
a closed condition-to-icon lookup with an unknown fallback. -/
def get_weather_icon_name (condition : String) : String :=
  if condition = "Clear" then "clear-day.svg"
  else if condition = "Sunny" then "clear-day.svg"
  else if condition = "Partly cloudy" then "cloudy-3-day.svg"
  else if condition = "Cloudy" then "cloudy.svg"
  else if condition = "Overcast" then "cloudy.svg"
  else if condition = "Rain" then "rainy-3.svg"
  else if condition = "Light rain" then "rainy-3-day.svg"
  else if condition = "Heavy rain" then "rainy-3-night.svg"
  else if condition = "Thunderstorm" then "thunderstorms.svg"
  else if condition = "Snow" then "snowy-3.svg"
  else if condition = "Fog" then "fog.svg"
  else if condition = "Haze" then "haze.svg"
  else if condition = "Wind" then "wind.svg"
  else "unknown.svg"

/-- The temperature and condition strings read by `_generate_header`
(display_manager.py lines 112..116): the "N/A" / "Unknown" fallbacks when
weather is missing or lacks a `current` key, and an `AttributeError` when a
present `current` value is malformed — the only operation of the header that
can raise. -/
def headerTempCond (weather_data : Option WeatherDict) :
    Except PyErr (String × String) :=
  match weather_data with
  | some wd =>
    match wd.current with
    | some (.dict c) =>
      .ok ((c.temperature.getD "N/A") ++ "°F", c.condition.getD "Unknown")
    | some .nonDict => .error .attributeError
    | none => .ok ("N/A", "Unknown")
  | none => .ok ("N/A", "Unknown")

/-- The pure drawing part of `_generate_header` (display_manager.py lines
104..142): date left-aligned, time centered, temperature right-aligned with
the condition icon just left of it when the icon loads. -/
def headerImg (sys : Sys) (temperature condition : String) : Img :=
  let weather_icon :=
    load_svg_icon sys ICON_SIZE_DM (get_weather_icon_name condition)
  let base := Img.new DISPLAY_WIDTH HEADER_HEIGHT ⟨0, 0, 0⟩
  let text_y : Int := (HEADER_HEIGHT / 2 : Nat)
  let d1 := Img.draw base
    (.text 10 text_y sys.dateStr HEADER_FONT_SIZE ⟨255, 255, 255⟩)
  let d2 := Img.draw d1
    (.text ((DISPLAY_WIDTH / 2 : Nat)) text_y sys.timeStr HEADER_FONT_SIZE
      ⟨255, 255, 255⟩)
  let temp_width : Int := (sys.metrics.width temperature HEADER_FONT_SIZE : Nat)
  let total_width : Int := (ICON_SIZE_DM : Int) + 20 + temp_width
  let right_x : Int := (DISPLAY_WIDTH : Int) - 10
  let d3 := Img.draw d2
    (.text right_x text_y temperature HEADER_FONT_SIZE ⟨255, 255, 255⟩)
  match weather_icon with
  | some icon =>
    let icon_x := right_x - total_width + (ICON_SIZE_DM / 2 : Nat)
    let icon_y := text_y - ((ICON_SIZE_DM / 2 : Nat) : Int)
    Img.paste d3 icon icon_x icon_y
  | none => d3

/-- `_generate_header(weather_data)` (display_manager.py lines 102..142). -/
def generate_header (sys : Sys) (weather_data : Option WeatherDict) :
    Except PyErr Img :=
  (headerTempCond weather_data).map fun tc => headerImg sys tc.1 tc.2

/-- `_generate_body(image)` (display_manager.py lines 173..188): a black
body band; a present content image is orientation-normalized, resized to
fill the band edge-to-edge and pasted at the origin.  Every operation in the
model is total, so the inner `except` branch is not taken. -/
def generate_body (image : Option Img) : Img :=
  let body := Img.new DISPLAY_WIDTH BODY_HEIGHT ⟨0, 0, 0⟩
  match image with
  | some i =>
    Img.paste body (Img.resize (Img.exifT i) DISPLAY_WIDTH BODY_HEIGHT) 0 0
  | none => body

/-- `_generate_table(content, weather_data)` (display_manager.py lines
80..100): compose header and body on a landscape 600x400 canvas, rotating
into portrait 400x600 as the final step.  The surrounding `try` catches a
header exception (the body renderer catches its own); the `except` branch
returns a blank landscape 600x400 canvas without the rotation. -/
def generate_table (sys : Sys) (content : Option Img)
    (weather_data : Option WeatherDict) : Img :=
  match generate_header sys weather_data with
  | .ok header =>
    let display := Img.new DISPLAY_WIDTH DISPLAY_HEIGHT ⟨0, 0, 0⟩
    let d1 := Img.paste display header 0 0
    let d2 := Img.paste d1 (generate_body content) 0 (HEADER_HEIGHT : Nat)
    Img.rot90 d2
  | .error _ => Img.new DISPLAY_WIDTH DISPLAY_HEIGHT ⟨0, 0, 0⟩

/-- `display_image(content, content_type, weather_data)` (display_manager.py
lines 65..78): composes the table, saves a debug copy of the final frame
(without quantization), and hands `epd.getbuffer(final_image)` to
`epd.display`.  The debug save and the hardware sink are modelled as
always-succeeding events, so the frame sent is exactly the composed table;
the surrounding `try/except` makes the function total in any case. -/
def display_image (sys : Sys) (content : Option Img)
    (content_type : Option String) (weather_data : Option WeatherDict) :
    Option Img :=
  some (generate_table sys content weather_data)

/-- A news record from `fetch_news` (news_fetcher.py): title and summary are
always-present strings; `thumbnail_url` is the extracted image url, `none`
when absent or null (an empty, falsy url is handled separately). -/
structure NewsRec where
  title : String
  summary : String
  thumbnail_url : Option String
deriving DecidableEq, Repr

/-- Headline band of `generate_news_image` (image_generator.py lines
198..218): the fitted title centered at the top of a blank canvas, returned
together with `image_y_position` (line 221). -/
def newsHeadlineImg (sys : Sys) (nd : NewsRec) : Img × Nat :=
  let base := Img.new DISPLAY_WIDTH DISPLAY_HEIGHT ⟨0, 0, 0⟩
  let fitted := fit_text_to_width sys.metrics nd.title
    (DISPLAY_WIDTH - 2 * 20) (FONT_SIZE * 2)
  let headline_height := sys.metrics.height fitted.1 fitted.2
  let headline_width := sys.metrics.width fitted.1 fitted.2
  let headline_x : Int := ((DISPLAY_WIDTH : Int) - headline_width) / 2
  (Img.draw base (.text headline_x 20 fitted.1 fitted.2 ⟨255, 255, 255⟩),
    20 + headline_height + 10)

/-- Summary band of `generate_news_image` (image_generator.py lines
232..243): the summary fitted into the space right of the thumbnail area
and below the headline. -/
def newsSummaryDraw (sys : Sys) (nd : NewsRec) (img : Img)
    (image_y_position : Nat) : Img :=
  let summary_x_start : Nat := 20 + 250 + 20
  let fsum := fit_text_to_area sys.metrics nd.summary
    (DISPLAY_WIDTH - summary_x_start - 20)
    (DISPLAY_HEIGHT - image_y_position - 20) (FONT_SIZE - 6)
  Img.draw img
    (.text (summary_x_start : Nat) (image_y_position : Nat) fsum.1 fsum.2
      ⟨200, 200, 200⟩)

/-- `generate_news_image(news_data)` (image_generator.py lines 190..251).
The thumbnail block (lines 222..230) runs only for a truthy url; its `try`
catches only `requests.exceptions.RequestException`, so a download that
succeeds with undecodable bytes raises out of the generator
(`Image.open(...).convert` on line 226), while a request failure degrades to
the text-only layout. -/
def generate_news_image (sys : Sys) (news_data : Option NewsRec) :
    Except PyErr (Option Img) :=
  match news_data with
  | none => .ok none
  | some nd =>
    let hi := newsHeadlineImg sys nd
    match nd.thumbnail_url with
    | none => .ok (some (save_image_img (newsSummaryDraw sys nd hi.1 hi.2)))
    | some url =>
      if url = "" then
        .ok (some (save_image_img (newsSummaryDraw sys nd hi.1 hi.2)))
      else
        match sys.http url with
        | .requestError =>
          .ok (some (save_image_img (newsSummaryDraw sys nd hi.1 hi.2)))
        | .badBytes => .error .unidentifiedImageError
        | .image id w h =>
          .ok (some (save_image_img (newsSummaryDraw sys nd
            (Img.paste hi.1 (Img.resize (Img.raw id w h) 250 150) 20 (hi.2 : Nat))
            hi.2)))

/-- Python float formatting `f"(value):.2f"` on a value held in cents. -/
def pad2 (n : Nat) : String :=
  if n < 10 then "0" ++ toString n else toString n

/-- Two-decimal rendering of a cents value. -/
def formatMoney (cents : Int) : String :=
  (if cents < 0 then "-" else "") ++ toString (cents.natAbs / 100) ++ "." ++
    pad2 (cents.natAbs % 100)

/-- Stock grid column width (image_generator.py line 158). -/
def stock_column_width : Nat := (IMG_WIDTH - 20 * 3) / 2

/-- Stock grid row height (image_generator.py line 159). -/
def stock_row_height : Nat := (IMG_HEIGHT - 20 * 6) / 5

/-- The draw calls of one grid cell (image_generator.py lines 169..183):
symbol in white, price colored green for a positive change and red
otherwise, and the change value only when it is nonzero. -/
def drawStockCell (img : Img) (stock : StockRec) (index : Nat)
    (cents : Int) : Img :=
  let col := index % 2
  let row := index / 2
  let x_position : Nat := 20 + col * (stock_column_width + 20)
  let y_position : Nat := 20 + row * (stock_row_height + 20)
  let i1 := Img.draw img
    (.text x_position y_position stock.symbol FONT_SIZE ⟨255, 255, 255⟩)
  let price_color : RGB :=
    if stock.change > 0 then ⟨0, 255, 0⟩ else ⟨255, 0, 0⟩
  let i2 := Img.draw i1
    (.text (x_position + 150 : Nat) y_position (formatMoney cents)
      FONT_SIZE price_color)
  if stock.change ≠ 0 then
    Img.draw i2
      (.text (x_position + 250 : Nat) y_position (formatMoney stock.change)
        FONT_SIZE ⟨255, 255, 255⟩)
  else i2

/-- The `for index, stock in enumerate(stock_data[:10])` loop
(image_generator.py lines 162..183).  Formatting the price of a placeholder
record — the string "No Data" — with the `:.2f` float format specifier
raises `ValueError`, which propagates out of the generator; Python draws the
symbol before the format call, but the exception discards the partly drawn
canvas, so separating the price check from the cell draws is
value-equivalent. -/
def drawStocks (img : Img) : List StockRec → Nat → Except PyErr Img
  | [], _ => .ok img
  | stock :: rest, index =>
    if 5 ≤ index / 2 then .ok img
    else
      match stock.current_price with
      | .noData => .error .valueError
      | .num cents =>
        drawStocks (drawStockCell img stock index cents) rest (index + 1)

/-- `generate_stock_image(stock_data)` (image_generator.py lines 138..187):
`None` for an empty input, otherwise the drawn and quantized grid — or a
propagating exception from the drawing loop. -/
def generate_stock_image (stock_data : List StockRec) :
    Except PyErr (Option Img) :=
  if stock_data.isEmpty then .ok none
  else do
    let image := Img.new IMG_WIDTH IMG_HEIGHT ⟨0, 0, 0⟩
    let drawn ← drawStocks image (stock_data.take 10) 0
    .ok (some (save_image_img drawn))

/-- `moon_phase_map.get(name, "unknown.svg")` (image_generator.py lines
263..272 and 340). -/
def moon_phase_map (k : String) : String :=
  if k = "FIRST_QUARTER" then "first-quarter.svg"
  else if k = "FULL_MOON" then "full-moon.svg"
  else if k = "LAST_QUARTER" then "last-quarter.svg"
  else if k = "NEW_MOON" then "new-moon.svg"
  else if k = "WANING_CRESCENT" then "waning-crescent.svg"
  else if k = "WANING_GIBBOUS" then "waning-gibbous.svg"
  else if k = "WAXING_CRESCENT" then "waxing-crescent.svg"
  else if k = "WAXING_GIBBOUS" then "waxing-gibbous.svg"
  else "unknown.svg"

/-- Python `str.upper()` on the characters of a string. -/
def pyUpper (s : String) : String :=
  String.mk (s.data.map Char.toUpper)

/-- Python `str.title()`: the first letter of every alphabetic run is
uppercased, the rest lowercased. -/
def titleChars : List Char → Bool → List Char
  | [], _ => []
  | c :: cs, prevAlpha =>
    (if c.isAlpha then (if prevAlpha then c.toLower else c.toUpper) else c) ::
      titleChars cs c.isAlpha

/-- Python `str.title()` on a string. -/
def pyTitle (s : String) : String :=
  String.mk (titleChars s.data false)

/-- Python `str.replace("_", " ")`, a character substitution here. -/
def replaceUnderscores (s : String) : String :=
  String.mk (s.data.map fun c => if c = '_' then ' ' else c)

/-- Loop-carried state of the weather-column loop: the canvas plus the
`sunrise_x` and `sunset_x` Python locals, which are only assigned when the
corresponding icon loaded and are referenced outside that conditional
(a `NameError` if referenced before any assignment). -/
structure WeatherLoopState where
  img : Img
  sunrise_x : Option Int
  sunset_x : Option Int
deriving DecidableEq, Repr

/-- Font size `int(FONT_SIZE // 1.75)` = 14 (image_generator.py line 281). -/
def MOON_FONT_SIZE : Nat := 14

/-- Font size `int(FONT_SIZE * 1.10)` = 28 (image_generator.py line 282). -/
def DAY_FONT_SIZE : Nat := 28

/-- Weather column width `(IMG_WIDTH - 80) // 3` (line 292). -/
def weather_col_width : Nat := (IMG_WIDTH - 80) / 3

/-- One iteration of the forecast-column loop (image_generator.py lines
300..349).  Raises `IndexError` when the `moon_phase` value is missing or
whitespace-only (`.split()[0]` on an empty token list), and `NameError` when
a sunrise or sunset icon never loaded but its text position is read. -/
def drawWeatherDay (sys : Sys) (st : WeatherLoopState) (day : DailyForecast)
    (i : Nat) : Except PyErr WeatherLoopState := do
  let col_spacing : Nat := 20
  let total_table_width := weather_col_width * 3 + col_spacing * 2
  let table_start_x := (IMG_WIDTH - total_table_width) / 2
  let x_pos : Int := (table_start_x + i * (weather_col_width + col_spacing) : Nat)
  let column_center : Int := x_pos + (weather_col_width / 2 : Nat)
  let i1 := Img.draw st.img
    (.rect x_pos 40 (x_pos + (weather_col_width : Int)) ((IMG_HEIGHT : Int) - 10)
      false ⟨0, 0, 0⟩)
  let i2 := Img.draw i1
    (.rect x_pos 40 (x_pos + (weather_col_width : Int)) ((IMG_HEIGHT : Int) - 10)
      true ⟨135, 206, 235⟩)
  let day_text := day.date.getD "Unknown"
  let day_width : Int := (sys.metrics.width day_text DAY_FONT_SIZE : Nat)
  let i3 := Img.draw i2
    (.text (column_center - day_width / 2) 50 day_text DAY_FONT_SIZE ⟨0, 0, 0⟩)
  let high_temp_text := "H: " ++ day.high_temp.getD "N/A" ++ "°F"
  let low_temp_text := "L: " ++ day.low_temp.getD "N/A" ++ "°F"
  let temp_width : Int := (sys.metrics.width high_temp_text (FONT_SIZE - 4) : Nat)
  let i4 := Img.draw i3
    (.text (column_center - temp_width / 2) 90 high_temp_text (FONT_SIZE - 4)
      ⟨255, 0, 0⟩)
  let i5 := Img.draw i4
    (.text (column_center - temp_width / 2) 120 low_temp_text (FONT_SIZE - 4)
      ⟨0, 0, 255⟩)
  let sunriseIcon := load_svg_icon sys ICON_SIZE_IG "sunrise.svg"
  let sr : Img × Option Int :=
    match sunriseIcon with
    | some icon => (Img.paste i5 icon (x_pos + 10) 160, some (x_pos + 10))
    | none => (i5, st.sunrise_x)
  let sunrise_x ←
    match sr.2 with
    | some v => pure v
    | none => throw PyErr.nameError
  let i6 := Img.draw sr.1
    (.text (sunrise_x + (ICON_SIZE_IG : Int) + 5) 170 (day.sunrise.getD "N/A")
      (FONT_SIZE - 4) ⟨255, 69, 0⟩)
  let sunsetIcon := load_svg_icon sys ICON_SIZE_IG "sunset.svg"
  let ss : Img × Option Int :=
    match sunsetIcon with
    | some icon => (Img.paste i6 icon (x_pos + 10) 200, some (x_pos + 10))
    | none => (i6, st.sunset_x)
  let sunset_x ←
    match ss.2 with
    | some v => pure v
    | none => throw PyErr.nameError
  let i7 := Img.draw ss.1
    (.text (sunset_x + (ICON_SIZE_IG : Int) + 5) 210 (day.sunset.getD "N/A")
      (FONT_SIZE - 4) ⟨102, 51, 153⟩)
  let firstTok ←
    match pySplit (day.moon_phase.getD "") with
    | [] => throw PyErr.indexError
    | t :: _ => pure t
  let moon_phase_name := pyUpper firstTok
  let moonIcon := load_svg_icon sys ICON_SIZE_IG (moon_phase_map moon_phase_name)
  let i8 :=
    match moonIcon with
    | some icon =>
      Img.paste i7 icon (column_center - ((ICON_SIZE_IG / 2 : Nat) : Int)) 240
    | none => i7
  let moon_phase_text := pyTitle (replaceUnderscores (day.moon_phase.getD "Unknown"))
  let moon_text_width : Int :=
    (sys.metrics.width moon_phase_text MOON_FONT_SIZE : Nat)
  let i9 := Img.draw i8
    (.text (column_center - moon_text_width / 2) 290 moon_phase_text
      MOON_FONT_SIZE ⟨0, 0, 0⟩)
  pure { img := i9, sunrise_x := some sunrise_x, sunset_x := some sunset_x }

/-- The forecast-column loop over `weather_data["forecast"][:3]`. -/
def drawWeatherDays (sys : Sys) :
    List DailyForecast → Nat → WeatherLoopState → Except PyErr WeatherLoopState
  | [], _, st => .ok st
  | day :: rest, i, st => do
    let st2 ← drawWeatherDay sys st day i
    drawWeatherDays sys rest (i + 1) st2

/-- `generate_weather_image(weather_data)` (image_generator.py lines
253..355): `None` when the forecast key is absent or holds fewer than 3
entries; otherwise the drawn 3-column grid, quantized by `save_image` — with
the whole drawing wrapped in a `try` whose `except` logs and returns `None`.
The guard `len(weather_data["forecast"]) < 3` (line 255) runs BEFORE the
`try` (line 278), so a malformed forecast value raises `TypeError` at
`len()` and that exception escapes the generator. -/
def generate_weather_image (sys : Sys) (weather_data : WeatherDict) :
    Except PyErr (Option Img) :=
  match weather_data.forecast with
  | none => .ok none
  | some .nonSized => .error .typeError
  | some (.list fc) =>
    if fc.length < 3 then .ok none
    else
      let image := Img.new IMG_WIDTH IMG_HEIGHT ⟨255, 255, 255⟩
      let title_width : Int :=
        (sys.metrics.width "3-Day Forecast" FONT_SIZE : Nat)
      let i1 := Img.draw image
        (.text (((IMG_WIDTH : Int) - title_width) / 2) 10 "3-Day Forecast"
          FONT_SIZE ⟨0, 0, 0⟩)
      match drawWeatherDays sys (fc.take 3) 0
          { img := i1, sunrise_x := none, sunset_x := none } with
      | .ok st => .ok (some (save_image_img st.img))
      | .error _ => .ok none

/-- One tick of external-collaborator outcomes: the stock list returned by
`fetch_stock_data`, the news record, the next photo, and the record returned
by `weather_fetcher.get_weather` — which never returns a falsy value, since
a total fetch failure yields the "Unavailable" placeholder dictionary. -/
structure Env where
  stocks : List StockRec
  news : Option NewsRec
  photo : Option Img
  weather : WeatherDict
deriving DecidableEq

/-- The enabled-mode flags and per-mode dwell seconds read from the
environment (infoHUD.py lines 37..49). -/
structure Config where
  ENABLE_IMAGES : Bool
  ENABLE_STOCKS : Bool
  ENABLE_NEWS : Bool
  ENABLE_WEATHER : Bool
  IMAGE_DISPLAY_TIME : Nat
  STOCK_DISPLAY_TIME : Nat
  NEWS_DISPLAY_TIME : Nat
  WEATHER_DISPLAY_TIME : Nat
deriving DecidableEq, Repr

/-- Result of `fetch_and_prepare_content`: the regular two-element return,
or the three-element return of a successful weather tick. -/
inductive FetchResult where
  | pair (content : Option Img) (content_type : Option String)
  | withWeather (content : Img) (content_type : String) (weather : WeatherDict)
deriving DecidableEq

/-- `fetch_and_prepare_content(mode)` (infoHUD.py lines 55..87).  The
function installs no exception handler of its own, so an exception from a
generator call propagates to the scheduling loop. -/
def fetch_and_prepare_content (sys : Sys) (cfg : Config) (env : Env)
    (mode : String) : Except PyErr FetchResult := do
  if mode = "stock" ∧ cfg.ENABLE_STOCKS then
    if env.stocks.isEmpty then
      return .pair none none
    else
      let stock_image ← generate_stock_image env.stocks
      match stock_image with
      | some i => return .pair (some i) (some "stock")
      | none => return .pair none none
  else if mode = "news" ∧ cfg.ENABLE_NEWS then
    let news_image ← generate_news_image sys env.news
    match news_image with
    | some i => return .pair (some i) (some "news")
    | none => return .pair none none
  else if mode = "image" ∧ cfg.ENABLE_IMAGES then
    match env.photo with
    | some raw_image => return .pair (some raw_image) (some "image")
    | none => return .pair none none
  else if mode = "weather" ∧ cfg.ENABLE_WEATHER then
    let weather_image ← generate_weather_image sys env.weather
    match weather_image with
    | some wi => return .withWeather wi "weather" env.weather
    | none => return .pair none none
  else
    return .pair none none

/-- The enabled-mode list in its fixed priority order (infoHUD.py lines
91..99). -/
def display_modes (cfg : Config) : List String :=
  (if cfg.ENABLE_IMAGES then ["image"] else []) ++
    (if cfg.ENABLE_STOCKS then ["stock"] else []) ++
    (if cfg.ENABLE_NEWS then ["news"] else []) ++
    (if cfg.ENABLE_WEATHER then ["weather"] else [])

/-- Whether `main_loop` proceeds past the fatal no-modes configuration check
(infoHUD.py lines 101..103). -/
def main_loop_starts (cfg : Config) : Bool :=
  !(display_modes cfg).isEmpty

/-- Scheduler state across ticks: the mode index and the retained weather
record (infoHUD.py lines 105..106 and 115..120). -/
structure SchedState where
  current_mode_index : Nat
  weather_data : Option WeatherDict
deriving DecidableEq

/-- The observable outcome of one tick: the next state, the frame handed to
the display sink, and the dwell duration slept. -/
structure TickOut where
  state : SchedState
  sent : Option Img
  sleep_time : Nat
deriving DecidableEq

/-- One iteration of the scheduler `while True` body (infoHUD.py lines
108..137).  `display_image` is invoked unconditionally — also on a tick that
produced no content — and is total thanks to its internal `try/except`; an
exception escaping `fetch_and_prepare_content` (for instance from the stock
renderer) is caught nowhere in the loop and terminates it.  The sleep
duration is returned rather than performed. -/
def main_loop_step (sys : Sys) (cfg : Config) (env : Env)
    (st : SchedState) : Except PyErr TickOut := do
  let modes := display_modes cfg
  let current_mode := modes.getD st.current_mode_index ""
  let result ← fetch_and_prepare_content sys cfg env current_mode
  let cw : Option Img × Option String × Option WeatherDict :=
    match result with
    | .withWeather c t w => (some c, some t, some w)
    | .pair c t => (c, t, if cfg.ENABLE_WEATHER then st.weather_data else none)
  let sent := display_image sys cw.1 cw.2.1 cw.2.2
  let sleep_time :=
    if current_mode = "image" then cfg.IMAGE_DISPLAY_TIME
    else if current_mode = "stock" then cfg.STOCK_DISPLAY_TIME
    else if current_mode = "news" then cfg.NEWS_DISPLAY_TIME
    else if current_mode = "weather" then cfg.WEATHER_DISPLAY_TIME
    else 10
  let st2 : SchedState :=
    { current_mode_index := (st.current_mode_index + 1) % modes.length,
      weather_data := cw.2.2 }
  return { state := st2, sent := sent, sleep_time := sleep_time }

/-- Whether the header renderer raises for this weather value: exactly when
a present `current` key holds a malformed (non-mapping) value. -/
def headerRaises (weather_data : Option WeatherDict) : Bool :=
  match weather_data with
  | some wd =>
    match wd.current with
    | some .nonDict => true
    | _ => false
  | none => false

lemma generate_header_ok (sys : Sys) (w : Option WeatherDict)
    (h : headerRaises w = false) :
    ∃ i, generate_header sys w = .ok i := by
  cases w with
  | none => exact ⟨_, rfl⟩
  | some wd =>
    obtain ⟨cur, fc⟩ := wd
    cases cur with
    | none => exact ⟨_, rfl⟩
    | some cv =>
      cases cv with
      | dict c => exact ⟨_, rfl⟩
      | nonDict => cases h

lemma generate_header_err (sys : Sys) (w : Option WeatherDict)
    (h : headerRaises w = true) :
    generate_header sys w = .error .attributeError := by
  cases w with
  | none => cases h
  | some wd =>
    obtain ⟨cur, fc⟩ := wd
    cases cur with
    | none => cases h
    | some cv =>
      cases cv with
      | dict c => cases h
      | nonDict => rfl

/-- C2 (amended): whenever the compositor avoids its internal fault branch —
the supplied weather value does not make the header renderer raise — the
frame returned by `_generate_table` has the portrait dimensions 400 wide by
600 high, for every content image and content kind.  The caught-exception
fallback instead returns an unrotated landscape 600x400 blank canvas (see
the counterexample). -/
theorem generate_table_dims (sys : Sys) (content : Option Img)
    (weather_data : Option WeatherDict)
    (h : headerRaises weather_data = false) :
    dims (generate_table sys content weather_data) = (400, 600) := by
  obtain ⟨hd, hok⟩ := generate_header_ok sys weather_data h
  unfold generate_table
  rw [hok]
  rfl

/-- A concrete ambient environment for witnesses and counterexamples: no
icon files resolve, fixed clock strings, the demo font metrics. -/
def demoSys : Sys :=
  { icons := fun _ => none
    http := fun _ => HttpImage.requestError
    dateStr := "01 Jan 25"
    timeStr := "12:00"
    metrics := demoMetrics }

/-- Witness for `generate_table_dims` at a concrete input. -/
theorem generate_table_dims_witness :
    dims (generate_table demoSys none none) = (400, 600) :=
  generate_table_dims demoSys none none (by decide)

/-- A weather record whose `current` key holds a malformed value, as a
corrupted weather cache file can produce. -/
def badWeather : WeatherDict :=
  { current := some .nonDict, forecast := none }

/-- C2 counterexample: a weather value that makes the header raise drives
`_generate_table` into its `except` branch, whose blank fallback is an
unrotated 600x400 landscape canvas — not the claimed 400x600 portrait
frame. -/
theorem generate_table_dims_counterexample :
    dims (generate_table demoSys none (some badWeather)) = (600, 400) ∧
    ¬ dims (generate_table demoSys none (some badWeather)) = (400, 600) := by
  decide

/-- The condition under which `generate_weather_image` refuses to produce a
frame: no `forecast` key, or fewer than 3 forecast entries
(image_generator.py line 255). -/
def insufficientForecast (wd : WeatherDict) : Bool :=
  match wd.forecast with
  | none => true
  | some (.list fc) => decide (fc.length < 3)
  | some .nonSized => false

lemma generate_weather_image_insufficient (sys : Sys) (wd : WeatherDict)
    (h : insufficientForecast wd = true) :
    generate_weather_image sys wd = .ok none := by
  obtain ⟨cur, fc⟩ := wd
  cases fc with
  | none => rfl
  | some v =>
    cases v with
    | nonSized =>
      unfold insufficientForecast at h
      cases h
    | list l =>
      have hl : l.length < 3 := by
        unfold insufficientForecast at h
        simpa using h
      show (if l.length < 3 then Except.ok none else _) = .ok none
      rw [if_pos hl]

lemma getD_mem_or (l : List String) (i : Nat) (d : String) :
    l.getD i d ∈ l ∨ l.getD i d = d := by
  rcases hg : l.get? i with _ | x
  · right
    rw [List.get?_eq_getElem?] at hg
    simp [List.getD, hg]
  · left
    have hx : x ∈ l := List.get?_mem hg
    rw [List.get?_eq_getElem?] at hg
    have hgoal : l.getD i d = x := by simp [List.getD, hg]
    rw [hgoal]
    exact hx

lemma weather_mode_enabled (cfg : Config) (i : Nat)
    (h : (display_modes cfg).getD i "" = "weather") :
    cfg.ENABLE_WEATHER = true := by
  rcases getD_mem_or (display_modes cfg) i "" with hmem | hd
  · rw [h] at hmem
    obtain ⟨ei, es, en, ew, t1, t2, t3, t4⟩ := cfg
    cases ew
    · exfalso
      cases ei <;> cases es <;> cases en <;>
        simp_all [display_modes]
    · rfl
  · rw [h] at hd
    exact absurd hd (by decide)

/-- C7 (amended): on a tick whose selected mode is weather and whose weather
record has no forecast key or fewer than 3 forecast entries, the weather
image generator returns no frame — but the scheduler still invokes
`display_image` with null content, and a frame (the header over a blank
body) is handed to the display sink; display is not skipped. -/
theorem weather_insufficient_tick (sys : Sys) (cfg : Config) (env : Env)
    (st : SchedState)
    (hmode : (display_modes cfg).getD st.current_mode_index "" = "weather")
    (hw : insufficientForecast env.weather = true) :
    generate_weather_image sys env.weather = .ok none ∧
    main_loop_step sys cfg env st = .ok
      { state :=
          { current_mode_index :=
              (st.current_mode_index + 1) % (display_modes cfg).length,
            weather_data := st.weather_data },
        sent := some (generate_table sys none st.weather_data),
        sleep_time := cfg.WEATHER_DISPLAY_TIME } := by
  have hew : cfg.ENABLE_WEATHER = true :=
    weather_mode_enabled cfg st.current_mode_index hmode
  have hgw : generate_weather_image sys env.weather = .ok none :=
    generate_weather_image_insufficient sys env.weather hw
  have hfetch : fetch_and_prepare_content sys cfg env "weather" =
      .ok (.pair none none) := by
    simp [fetch_and_prepare_content, hgw, hew, pure, Except.pure, Bind.bind,
      Except.bind]
  refine ⟨hgw, ?_⟩
  have hmode2 := hmode
  simp only [List.getD, List.get?_eq_getElem?] at hmode2
  simp [main_loop_step, hmode, hmode2, hfetch, Bind.bind, Except.bind,
    display_image, hew, pure, Except.pure]

/-- Frame handed to the display hardware by one tick, when the tick ran to
completion. -/
def sentFrame : Except PyErr TickOut → Option Img
  | .ok t => t.sent
  | .error _ => none

/-- A configuration with only the weather mode enabled. -/
def cfgWeatherOnly : Config :=
  { ENABLE_IMAGES := false
    ENABLE_STOCKS := false
    ENABLE_NEWS := false
    ENABLE_WEATHER := true
    IMAGE_DISPLAY_TIME := 60
    STOCK_DISPLAY_TIME := 30
    NEWS_DISPLAY_TIME := 30
    WEATHER_DISPLAY_TIME := 20 }

/-- A well-formed forecast day. -/
def demoDay : DailyForecast :=
  { date := some "Monday"
    high_temp := some "70"
    low_temp := some "50"
    sunrise := some "06:12 AM"
    sunset := some "07:44 PM"
    moon_phase := some "FULL MOON" }

/-- A weather record with only two forecast days. -/
def twoDayWeather : WeatherDict :=
  { current := some (.dict { condition := some "Clear", temperature := some "70" })
    forecast := some (.list [demoDay, demoDay]) }

/-- Environment of a weather tick whose forecast is too short. -/
def envTwoDay : Env :=
  { stocks := []
    news := none
    photo := none
    weather := twoDayWeather }

/-- C7 counterexample: with a two-entry forecast the weather generator
returns no frame, yet the tick still hands a frame to the display sink —
refuting the claim that no display call is attempted on such a tick. -/
theorem weather_insufficient_tick_counterexample :
    generate_weather_image demoSys twoDayWeather = .ok none ∧
    (sentFrame (main_loop_step demoSys cfgWeatherOnly envTwoDay
      ⟨0, none⟩)).isSome = true := by
  decide

/-- Witness for `weather_insufficient_tick` at a concrete input. -/
theorem weather_insufficient_tick_witness :
    generate_weather_image demoSys envTwoDay.weather = .ok none ∧
    main_loop_step demoSys cfgWeatherOnly envTwoDay ⟨0, some twoDayWeather⟩ =
      .ok
        { state :=
            { current_mode_index :=
                (0 + 1) % (display_modes cfgWeatherOnly).length,
              weather_data := some twoDayWeather },
          sent := some (generate_table demoSys none (some twoDayWeather)),
          sleep_time := cfgWeatherOnly.WEATHER_DISPLAY_TIME } :=
  weather_insufficient_tick demoSys cfgWeatherOnly envTwoDay
    ⟨0, some twoDayWeather⟩ (by decide) (by decide)

lemma drawStocks_ok_iff :
    ∀ (l : List StockRec) (img : Img) (i : Nat), i + l.length ≤ 10 →
      ((∃ d, drawStocks img l i = .ok d) ↔
        ∀ r ∈ l, r.current_price ≠ .noData) := by
  intro l
  induction l with
  | nil =>
    intro img i _
    simp [drawStocks]
  | cons stock rest ih =>
    intro img i hlen
    simp only [List.length_cons] at hlen
    rw [drawStocks]
    rw [if_neg (by omega : ¬ 5 ≤ i / 2)]
    cases hp : stock.current_price with
    | noData =>
      constructor
      · rintro ⟨d, hd⟩
        simp at hd
      · intro hall
        exact absurd hp (hall stock (List.mem_cons_self _ _))
    | num cents =>
      rw [List.forall_mem_cons]
      have hiff := ih (drawStockCell img stock i cents) (i + 1) (by omega)
      rw [hiff]
      simp [hp]

lemma generate_stock_image_ok_iff (sd : List StockRec) :
    (∃ v, generate_stock_image sd = .ok v) ↔
      (sd.isEmpty = true ∨ ∀ r ∈ sd.take 10, r.current_price ≠ .noData) := by
  by_cases he : sd.isEmpty
  · simp [generate_stock_image, he]
  · unfold generate_stock_image
    rw [if_neg he]
    have hlen : 0 + (sd.take 10).length ≤ 10 := by
      simp [List.length_take]
    have hiff := drawStocks_ok_iff (sd.take 10)
      (Img.new IMG_WIDTH IMG_HEIGHT ⟨0, 0, 0⟩) 0 hlen
    constructor
    · rintro ⟨v, hv⟩
      cases hds : drawStocks (Img.new IMG_WIDTH IMG_HEIGHT ⟨0, 0, 0⟩)
          (sd.take 10) 0 with
      | error e =>
        simp [hds, Bind.bind, Except.bind] at hv
      | ok d =>
        exact Or.inr (hiff.mp ⟨d, hds⟩)
    · rintro (hleft | hall)
      · exact absurd hleft he
      · obtain ⟨d, hds⟩ := hiff.mpr hall
        refine ⟨some (save_image_img d), ?_⟩
        show (do
          let drawn ← drawStocks (Img.new IMG_WIDTH IMG_HEIGHT ⟨0, 0, 0⟩)
            (sd.take 10) 0
          Except.ok (some (save_image_img drawn))) = _
        rw [hds]
        rfl

/-- The condition under which a stock tick raises: a nonempty fetched list
whose first 10 records include the "No Data" placeholder
(image_generator.py line 176). -/
def stockCrash (env : Env) : Bool :=
  !env.stocks.isEmpty &&
    (env.stocks.take 10).any fun r => r.current_price == PriceVal.noData

/-- The condition under which a news tick raises: a present, truthy
thumbnail url whose download succeeds with bytes PIL cannot decode
(image_generator.py lines 222..230; the handler catches only
`RequestException`). -/
def newsCrash (sys : Sys) (n : Option NewsRec) : Bool :=
  match n with
  | none => false
  | some nd =>
    match nd.thumbnail_url with
    | none => false
    | some url =>
      if url = "" then false
      else
        match sys.http url with
        | .badBytes => true
        | _ => false

/-- The condition under which a weather tick raises: a malformed `forecast`
value reaching the `len()` guard before the `try`
(image_generator.py line 255). -/
def weatherCrash (wd : WeatherDict) : Bool :=
  match wd.forecast with
  | some .nonSized => true
  | _ => false

lemma stockCrash_iff (env : Env) :
    stockCrash env = true ↔
      env.stocks.isEmpty = false ∧
        ∃ r ∈ env.stocks.take 10, r.current_price = .noData := by
  unfold stockCrash
  simp [List.any_eq_true, Bool.and_eq_true, Bool.not_eq_true', beq_iff_eq]

lemma generate_news_image_ok (sys : Sys) (n : Option NewsRec)
    (h : newsCrash sys n = false) :
    ∃ v, generate_news_image sys n = .ok v := by
  cases n with
  | none => exact ⟨none, rfl⟩
  | some nd =>
    obtain ⟨ti, su, tu⟩ := nd
    cases hg : generate_news_image sys (some ⟨ti, su, tu⟩) with
    | ok v => exact ⟨v, rfl⟩
    | error e =>
      exfalso
      cases tu with
      | none => simp [generate_news_image] at hg
      | some url =>
        by_cases hurl : url = ""
        · simp [generate_news_image, hurl] at hg
        · cases hu : sys.http url with
          | requestError => simp [generate_news_image, hurl, hu] at hg
          | image id w hh => simp [generate_news_image, hurl, hu] at hg
          | badBytes => simp [newsCrash, hurl, hu] at h

lemma generate_news_image_err (sys : Sys) (n : Option NewsRec)
    (h : newsCrash sys n = true) :
    generate_news_image sys n = .error .unidentifiedImageError := by
  cases n with
  | none => simp [newsCrash] at h
  | some nd =>
    obtain ⟨ti, su, tu⟩ := nd
    cases tu with
    | none => simp [newsCrash] at h
    | some url =>
      by_cases hurl : url = ""
      · simp [newsCrash, hurl] at h
      · cases hu : sys.http url with
        | badBytes => simp [generate_news_image, hurl, hu]
        | requestError => simp [newsCrash, hurl, hu] at h
        | image id w hh => simp [newsCrash, hurl, hu] at h

lemma generate_weather_image_ok (sys : Sys) (wd : WeatherDict)
    (h : weatherCrash wd = false) :
    ∃ v, generate_weather_image sys wd = .ok v := by
  obtain ⟨cur, fc⟩ := wd
  cases fc with
  | none => exact ⟨none, rfl⟩
  | some v =>
    cases v with
    | nonSized => simp [weatherCrash] at h
    | list l =>
      cases hg : generate_weather_image sys ⟨cur, some (.list l)⟩ with
      | ok v2 => exact ⟨v2, rfl⟩
      | error e =>
        exfalso
        by_cases hl : l.length < 3
        · simp [generate_weather_image, hl] at hg
        · simp only [generate_weather_image, if_neg hl] at hg
          split at hg
          · exact Except.noConfusion hg
          · exact Except.noConfusion hg

lemma generate_weather_image_err (sys : Sys) (wd : WeatherDict)
    (h : weatherCrash wd = true) :
    generate_weather_image sys wd = .error .typeError := by
  obtain ⟨cur, fc⟩ := wd
  cases fc with
  | none => simp [weatherCrash] at h
  | some v =>
    cases v with
    | nonSized => rfl
    | list l => simp [weatherCrash] at h

lemma drawStocks_err_of_bad :
    ∀ (l : List StockRec) (img : Img) (i : Nat), i + l.length ≤ 10 →
      (∃ r ∈ l, r.current_price = .noData) →
      drawStocks img l i = .error .valueError := by
  intro l
  induction l with
  | nil =>
    intro img i _ h
    simp at h
  | cons stock rest ih =>
    intro img i hlen hbad
    simp only [List.length_cons] at hlen
    rw [drawStocks, if_neg (by omega : ¬ 5 ≤ i / 2)]
    cases hp : stock.current_price with
    | noData => rfl
    | num cents =>
      obtain ⟨r, hr, hrq⟩ := hbad
      rcases List.mem_cons.mp hr with rfl | hr2
      · rw [hp] at hrq
        cases hrq
      · exact ih (drawStockCell img stock i cents) (i + 1) (by omega)
          ⟨r, hr2, hrq⟩

lemma generate_stock_image_err (sd : List StockRec)
    (hne : sd.isEmpty = false)
    (hbad : ∃ r ∈ sd.take 10, r.current_price = .noData) :
    generate_stock_image sd = .error .valueError := by
  unfold generate_stock_image
  rw [if_neg (by simp [hne])]
  have hds := drawStocks_err_of_bad (sd.take 10)
    (Img.new IMG_WIDTH IMG_HEIGHT ⟨0, 0, 0⟩) 0
    (by simp [List.length_take]) hbad
  show (do
    let drawn ← drawStocks (Img.new IMG_WIDTH IMG_HEIGHT ⟨0, 0, 0⟩)
      (sd.take 10) 0
    Except.ok (some (save_image_img drawn))) = _
  rw [hds]
  rfl

lemma fetch_err_stock (sys : Sys) (cfg : Config) (env : Env)
    (hen : cfg.ENABLE_STOCKS = true) (hc : stockCrash env = true) :
    fetch_and_prepare_content sys cfg env "stock" = .error .valueError := by
  obtain ⟨hne, hbad⟩ := (stockCrash_iff env).mp hc
  unfold fetch_and_prepare_content
  rw [if_pos (⟨rfl, hen⟩ : ("stock" : String) = "stock" ∧
    cfg.ENABLE_STOCKS = true)]
  rw [if_neg (by simp [hne])]
  have hgs := generate_stock_image_err env.stocks hne hbad
  show (do
    let stock_image ← generate_stock_image env.stocks
    match stock_image with
    | some i => pure (FetchResult.pair (some i) (some "stock"))
    | none => pure (FetchResult.pair none none)) = _
  rw [hgs]
  rfl

lemma fetch_err_news (sys : Sys) (cfg : Config) (env : Env)
    (hen : cfg.ENABLE_NEWS = true) (hc : newsCrash sys env.news = true) :
    fetch_and_prepare_content sys cfg env "news" =
      .error .unidentifiedImageError := by
  unfold fetch_and_prepare_content
  rw [if_neg (fun h => absurd h.1 (by decide))]
  rw [if_pos (⟨rfl, hen⟩ : ("news" : String) = "news" ∧
    cfg.ENABLE_NEWS = true)]
  have hg := generate_news_image_err sys env.news hc
  show (do
    let news_image ← generate_news_image sys env.news
    match news_image with
    | some i => pure (FetchResult.pair (some i) (some "news"))
    | none => pure (FetchResult.pair none none)) = _
  rw [hg]
  rfl

lemma fetch_err_weather (sys : Sys) (cfg : Config) (env : Env)
    (hen : cfg.ENABLE_WEATHER = true)
    (hc : weatherCrash env.weather = true) :
    fetch_and_prepare_content sys cfg env "weather" = .error .typeError := by
  unfold fetch_and_prepare_content
  rw [if_neg (fun h => absurd h.1 (by decide))]
  rw [if_neg (fun h => absurd h.1 (by decide))]
  rw [if_neg (fun h => absurd h.1 (by decide))]
  rw [if_pos (⟨rfl, hen⟩ : ("weather" : String) = "weather" ∧
    cfg.ENABLE_WEATHER = true)]
  have hg := generate_weather_image_err sys env.weather hc
  show (do
    let weather_image ← generate_weather_image sys env.weather
    match weather_image with
    | some wi => pure (FetchResult.withWeather wi "weather" env.weather)
    | none => pure (FetchResult.pair none none)) = _
  rw [hg]
  rfl

lemma fetch_ok_of (sys : Sys) (cfg : Config) (env : Env) (mode : String)
    (hs : ¬(mode = "stock" ∧ cfg.ENABLE_STOCKS = true ∧
      stockCrash env = true))
    (hn : ¬(mode = "news" ∧ cfg.ENABLE_NEWS = true ∧
      newsCrash sys env.news = true))
    (hw : ¬(mode = "weather" ∧ cfg.ENABLE_WEATHER = true ∧
      weatherCrash env.weather = true)) :
    ∃ r, fetch_and_prepare_content sys cfg env mode = .ok r := by
  unfold fetch_and_prepare_content
  by_cases h1 : mode = "stock" ∧ cfg.ENABLE_STOCKS = true
  · rw [if_pos h1]
    by_cases he : env.stocks.isEmpty
    · rw [if_pos he]
      exact ⟨.pair none none, rfl⟩
    · rw [if_neg he]
      have hcr : ¬ stockCrash env = true := fun hc => hs ⟨h1.1, h1.2, hc⟩
      have hgood : ∀ r ∈ env.stocks.take 10, r.current_price ≠ .noData := by
        intro r hr hbad
        exact hcr ((stockCrash_iff env).mpr
          ⟨Bool.eq_false_iff.mpr he, r, hr, hbad⟩)
      obtain ⟨v, hgs⟩ :=
        (generate_stock_image_ok_iff env.stocks).mpr (Or.inr hgood)
      cases v with
      | none =>
        refine ⟨.pair none none, ?_⟩
        show (do
          let stock_image ← generate_stock_image env.stocks
          match stock_image with
          | some i => pure (FetchResult.pair (some i) (some "stock"))
          | none => pure (FetchResult.pair none none)) = _
        rw [hgs]
        rfl
      | some i =>
        refine ⟨.pair (some i) (some "stock"), ?_⟩
        show (do
          let stock_image ← generate_stock_image env.stocks
          match stock_image with
          | some i => pure (FetchResult.pair (some i) (some "stock"))
          | none => pure (FetchResult.pair none none)) = _
        rw [hgs]
        rfl
  · rw [if_neg h1]
    by_cases h2 : mode = "news" ∧ cfg.ENABLE_NEWS = true
    · rw [if_pos h2]
      have hcr : ¬ newsCrash sys env.news = true :=
        fun hc => hn ⟨h2.1, h2.2, hc⟩
      obtain ⟨v, hg⟩ :=
        generate_news_image_ok sys env.news (Bool.eq_false_iff.mpr hcr)
      cases v with
      | none =>
        refine ⟨.pair none none, ?_⟩
        show (do
          let news_image ← generate_news_image sys env.news
          match news_image with
          | some i => pure (FetchResult.pair (some i) (some "news"))
          | none => pure (FetchResult.pair none none)) = _
        rw [hg]
        rfl
      | some i =>
        refine ⟨.pair (some i) (some "news"), ?_⟩
        show (do
          let news_image ← generate_news_image sys env.news
          match news_image with
          | some i => pure (FetchResult.pair (some i) (some "news"))
          | none => pure (FetchResult.pair none none)) = _
        rw [hg]
        rfl
    · rw [if_neg h2]
      by_cases h3 : mode = "image" ∧ cfg.ENABLE_IMAGES = true
      · rw [if_pos h3]
        cases hph : env.photo with
        | none => exact ⟨.pair none none, by rfl⟩
        | some i => exact ⟨.pair (some i) (some "image"), by rfl⟩
      · rw [if_neg h3]
        by_cases h4 : mode = "weather" ∧ cfg.ENABLE_WEATHER = true
        · rw [if_pos h4]
          have hcr : ¬ weatherCrash env.weather = true :=
            fun hc => hw ⟨h4.1, h4.2, hc⟩
          obtain ⟨v, hg⟩ :=
            generate_weather_image_ok sys env.weather
              (Bool.eq_false_iff.mpr hcr)
          cases v with
          | none =>
            refine ⟨.pair none none, ?_⟩
            show (do
              let weather_image ← generate_weather_image sys env.weather
              match weather_image with
              | some wi =>
                pure (FetchResult.withWeather wi "weather" env.weather)
              | none => pure (FetchResult.pair none none)) = _
            rw [hg]
            rfl
          | some wi =>
            refine ⟨.withWeather wi "weather" env.weather, ?_⟩
            show (do
              let weather_image ← generate_weather_image sys env.weather
              match weather_image with
              | some wi =>
                pure (FetchResult.withWeather wi "weather" env.weather)
              | none => pure (FetchResult.pair none none)) = _
            rw [hg]
            rfl
        · rw [if_neg h4]
          exact ⟨.pair none none, rfl⟩

/-- The tick outcome computed by the loop body once
`fetch_and_prepare_content` has returned normally — the pure remainder of
one `main_loop` iteration. -/
def tickOf (sys : Sys) (cfg : Config) (st : SchedState)
    (result : FetchResult) : TickOut :=
  let modes := display_modes cfg
  let current_mode := modes.getD st.current_mode_index ""
  let cw : Option Img × Option String × Option WeatherDict :=
    match result with
    | .withWeather c t w => (some c, some t, some w)
    | .pair c t => (c, t, if cfg.ENABLE_WEATHER then st.weather_data else none)
  let sent := display_image sys cw.1 cw.2.1 cw.2.2
  let sleep_time :=
    if current_mode = "image" then cfg.IMAGE_DISPLAY_TIME
    else if current_mode = "stock" then cfg.STOCK_DISPLAY_TIME
    else if current_mode = "news" then cfg.NEWS_DISPLAY_TIME
    else if current_mode = "weather" then cfg.WEATHER_DISPLAY_TIME
    else 10
  let st2 : SchedState :=
    { current_mode_index := (st.current_mode_index + 1) % modes.length,
      weather_data := cw.2.2 }
  { state := st2, sent := sent, sleep_time := sleep_time }

lemma main_loop_step_ok_of_fetch (sys : Sys) (cfg : Config) (env : Env)
    (st : SchedState) (r : FetchResult)
    (hf : fetch_and_prepare_content sys cfg env
      ((display_modes cfg).getD st.current_mode_index "") = .ok r) :
    main_loop_step sys cfg env st = .ok (tickOf sys cfg st r) := by
  have hf2 := hf
  simp only [List.getD, List.get?_eq_getElem?] at hf2
  simp only [main_loop_step, List.getD, List.get?_eq_getElem?]
  rw [hf2]
  simp only [Bind.bind, Except.bind, tickOf, List.getD, List.get?_eq_getElem?,
    pure, Except.pure]

lemma main_loop_step_err_of_fetch (sys : Sys) (cfg : Config) (env : Env)
    (st : SchedState) (e : PyErr)
    (hf : fetch_and_prepare_content sys cfg env
      ((display_modes cfg).getD st.current_mode_index "") = .error e) :
    main_loop_step sys cfg env st = .error e := by
  have hf2 := hf
  simp only [List.getD, List.get?_eq_getElem?] at hf2
  simp only [main_loop_step, List.getD, List.get?_eq_getElem?]
  rw [hf2]
  rfl

/-- C1 (amended): exceptions inside the compositor and display sub-steps and
inside the weather drawing loop are caught at their boundaries and replaced
by fallbacks, so a tick whose selected mode avoids the generators' uncaught
error paths completes normally.  But three generator error paths have no
fault boundary and each terminates the scheduling loop: a stock tick whose
first 10 fetched records include the producer's own "No Data" placeholder
(`ValueError` while float-formatting the price), a news tick whose thumbnail
downloads but cannot be decoded (only `RequestException` is caught), and a
weather tick whose cached forecast value is malformed (`TypeError` at the
`len()` guard before the `try`).  The fatal no-modes configuration is
therefore not the only loop-terminating condition. -/
theorem main_loop_uncaught_faults (sys : Sys) (cfg : Config) (env : Env)
    (st : SchedState) :
    (((display_modes cfg).getD st.current_mode_index "" = "stock" ∧
        cfg.ENABLE_STOCKS = true ∧ stockCrash env = true) →
      main_loop_step sys cfg env st = .error .valueError) ∧
    (((display_modes cfg).getD st.current_mode_index "" = "news" ∧
        cfg.ENABLE_NEWS = true ∧ newsCrash sys env.news = true) →
      main_loop_step sys cfg env st = .error .unidentifiedImageError) ∧
    (((display_modes cfg).getD st.current_mode_index "" = "weather" ∧
        cfg.ENABLE_WEATHER = true ∧ weatherCrash env.weather = true) →
      main_loop_step sys cfg env st = .error .typeError) ∧
    (¬((display_modes cfg).getD st.current_mode_index "" = "stock" ∧
        cfg.ENABLE_STOCKS = true ∧ stockCrash env = true) →
      ¬((display_modes cfg).getD st.current_mode_index "" = "news" ∧
        cfg.ENABLE_NEWS = true ∧ newsCrash sys env.news = true) →
      ¬((display_modes cfg).getD st.current_mode_index "" = "weather" ∧
        cfg.ENABLE_WEATHER = true ∧ weatherCrash env.weather = true) →
      ∃ t, main_loop_step sys cfg env st = .ok t) := by
  refine ⟨?_, ?_, ?_, ?_⟩
  · rintro ⟨hm, hen, hc⟩
    have hf := fetch_err_stock sys cfg env hen hc
    rw [← hm] at hf
    exact main_loop_step_err_of_fetch sys cfg env st _ hf
  · rintro ⟨hm, hen, hc⟩
    have hf := fetch_err_news sys cfg env hen hc
    rw [← hm] at hf
    exact main_loop_step_err_of_fetch sys cfg env st _ hf
  · rintro ⟨hm, hen, hc⟩
    have hf := fetch_err_weather sys cfg env hen hc
    rw [← hm] at hf
    exact main_loop_step_err_of_fetch sys cfg env st _ hf
  · intro hs hn hw
    obtain ⟨r, hr⟩ := fetch_ok_of sys cfg env
      ((display_modes cfg).getD st.current_mode_index "") hs hn hw
    exact ⟨tickOf sys cfg st r, main_loop_step_ok_of_fetch sys cfg env st r hr⟩

/-- Whether a tick ended in an uncaught exception. -/
def tickRaised : Except PyErr TickOut → Bool
  | .error _ => true
  | .ok _ => false

/-- A configuration with only the stock mode enabled. -/
def cfgStocksOnly : Config :=
  { ENABLE_IMAGES := false
    ENABLE_STOCKS := true
    ENABLE_NEWS := false
    ENABLE_WEATHER := false
    IMAGE_DISPLAY_TIME := 60
    STOCK_DISPLAY_TIME := 30
    NEWS_DISPLAY_TIME := 30
    WEATHER_DISPLAY_TIME := 20 }

/-- An environment whose stock fetch returned a single "No Data" placeholder
— exactly what `fetch_stock_data` itself produces for a symbol whose
response lacks close data. -/
def envNoData : Env :=
  { stocks := [placeholderRec "TSLA"]
    news := none
    photo := none
    weather := { current := none, forecast := none } }

/-- C1 counterexample: with the stock mode enabled (so at least one content
mode is on), a tick rendering the stock producer placeholder raises
`ValueError` inside `generate_stock_image`; nothing catches it, and the
scheduler loop terminates — refuting the claim that only the no-modes
configuration error can stop the loop. -/
theorem main_loop_step_crash_counterexample :
    main_loop_starts cfgStocksOnly = true ∧
    tickRaised (main_loop_step demoSys cfgStocksOnly envNoData ⟨0, none⟩) =
      true := by
  decide

/-- A configuration with only the news mode enabled. -/
def cfgNewsOnly : Config :=
  { ENABLE_IMAGES := false
    ENABLE_STOCKS := false
    ENABLE_NEWS := true
    ENABLE_WEATHER := false
    IMAGE_DISPLAY_TIME := 60
    STOCK_DISPLAY_TIME := 30
    NEWS_DISPLAY_TIME := 30
    WEATHER_DISPLAY_TIME := 20 }

/-- An ambient environment whose every thumbnail download returns bytes that
PIL cannot decode. -/
def sysBadThumb : Sys :=
  { demoSys with http := fun _ => HttpImage.badBytes }

/-- An environment whose news record carries a thumbnail url. -/
def envBadThumb : Env :=
  { stocks := []
    news := some { title := "T", summary := "S", thumbnail_url := some "u" }
    photo := none
    weather := { current := none, forecast := none } }

/-- An environment whose cached weather record holds a malformed forecast
value. -/
def envBadForecast : Env :=
  { stocks := []
    news := none
    photo := none
    weather := { current := none, forecast := some .nonSized } }

/-- Witness for `main_loop_uncaught_faults` at concrete inputs: the three
uncaught paths each end the tick in an error, and a tick avoiding all three
completes. -/
theorem main_loop_uncaught_faults_witness :
    main_loop_step demoSys cfgStocksOnly envNoData ⟨0, none⟩ =
      .error .valueError ∧
    main_loop_step sysBadThumb cfgNewsOnly envBadThumb ⟨0, none⟩ =
      .error .unidentifiedImageError ∧
    main_loop_step demoSys cfgWeatherOnly envBadForecast ⟨0, none⟩ =
      .error .typeError ∧
    (∃ t, main_loop_step demoSys cfgWeatherOnly envTwoDay ⟨0, none⟩ =
      .ok t) :=
  ⟨(main_loop_uncaught_faults demoSys cfgStocksOnly envNoData ⟨0, none⟩).1
      (by decide),
    (main_loop_uncaught_faults sysBadThumb cfgNewsOnly envBadThumb
      ⟨0, none⟩).2.1 (by decide),
    (main_loop_uncaught_faults demoSys cfgWeatherOnly envBadForecast
      ⟨0, none⟩).2.2.1 (by decide),
    (main_loop_uncaught_faults demoSys cfgWeatherOnly envTwoDay
      ⟨0, none⟩).2.2.2 (by decide) (by decide) (by decide)⟩

lemma headerImg_noQuant (sys : Sys) (t c : String) :
    hasQuant (headerImg sys t c) = false := by
  unfold headerImg
  cases hi : sys.icons (get_weather_icon_name c) with
  | none => simp [load_svg_icon, hi, hasQuant]
  | some id => simp [load_svg_icon, hi, hasQuant]

lemma generate_header_noQuant (sys : Sys) (w : Option WeatherDict) (i : Img)
    (h : generate_header sys w = .ok i) : hasQuant i = false := by
  unfold generate_header at h
  cases htc : headerTempCond w with
  | error e =>
    rw [htc] at h
    simp [Except.map] at h
  | ok tc =>
    rw [htc] at h
    simp only [Except.map] at h
    cases h
    exact headerImg_noQuant sys tc.1 tc.2

lemma generate_table_noQuant (sys : Sys) (c : Option Img)
    (w : Option WeatherDict) (hc : ∀ i, c = some i → hasQuant i = false) :
    hasQuant (generate_table sys c w) = false := by
  unfold generate_table
  cases hh : generate_header sys w with
  | error e => simp [hasQuant]
  | ok hd =>
    have hhd := generate_header_noQuant sys w hd hh
    cases c with
    | none => simp [hasQuant, generate_body, hhd]
    | some ci =>
      have hci := hc ci rfl
      simp [hasQuant, generate_body, hhd, hci]

lemma generate_table_notQuantRoot (sys : Sys) (c : Option Img)
    (w : Option WeatherDict) :
    isQuantRoot (generate_table sys c w) = false := by
  unfold generate_table
  cases hh : generate_header sys w with
  | error e => rfl
  | ok hd => rfl

lemma generate_stock_image_quantRoot (sd : List StockRec) (i : Img)
    (h : generate_stock_image sd = .ok (some i)) : isQuantRoot i = true := by
  unfold generate_stock_image at h
  by_cases he : sd.isEmpty
  · rw [if_pos he] at h
    cases h
  · rw [if_neg he] at h
    cases hds : drawStocks (Img.new IMG_WIDTH IMG_HEIGHT ⟨0, 0, 0⟩)
        (sd.take 10) 0 with
    | error e => simp [hds, Bind.bind, Except.bind] at h
    | ok d =>
      simp [hds, Bind.bind, Except.bind] at h
      rw [← h]
      rfl

lemma generate_news_image_quantRoot (sys : Sys) (n : Option NewsRec) (i : Img)
    (h : generate_news_image sys n = .ok (some i)) : isQuantRoot i = true := by
  cases n with
  | none => simp [generate_news_image] at h
  | some nd =>
    obtain ⟨ti, su, tu⟩ := nd
    cases tu with
    | none =>
      simp only [generate_news_image, Except.ok.injEq, Option.some.injEq] at h
      rw [← h]
      rfl
    | some url =>
      by_cases hurl : url = ""
      · simp only [generate_news_image, if_pos hurl, Except.ok.injEq,
          Option.some.injEq] at h
        rw [← h]
        rfl
      · cases hu : sys.http url with
        | requestError =>
          simp only [generate_news_image, if_neg hurl, hu, Except.ok.injEq,
            Option.some.injEq] at h
          rw [← h]
          rfl
        | badBytes =>
          simp only [generate_news_image, if_neg hurl, hu] at h
          exact Except.noConfusion h
        | image id w hh =>
          simp only [generate_news_image, if_neg hurl, hu, Except.ok.injEq,
            Option.some.injEq] at h
          rw [← h]
          rfl

lemma generate_weather_image_quantRoot (sys : Sys) (wd : WeatherDict) (i : Img)
    (h : generate_weather_image sys wd = .ok (some i)) :
    isQuantRoot i = true := by
  obtain ⟨cur, fc⟩ := wd
  cases fc with
  | none => simp [generate_weather_image] at h
  | some v =>
    cases v with
    | nonSized => exact Except.noConfusion h
    | list l =>
      simp only [generate_weather_image] at h
      by_cases hl : l.length < 3
      · rw [if_pos hl] at h
        simp at h
      · rw [if_neg hl] at h
        split at h
        · simp only [Except.ok.injEq, Option.some.injEq] at h
          rw [← h]
          rfl
        · simp at h

/-- C10: the frame handed to the display sink on every tick is exactly the
composed RGB canvas of `_generate_table` and is never itself quantized;
quantization is applied (via `save_image`) exactly once, to the body content
image, for the stock, news and weather kinds before compositing; and on a
photo tick no image in the sent frame — header, icons, or photo body — has
been quantized anywhere in the pipeline. -/
theorem quantization_scope :
    (∀ (sys : Sys) (c : Option Img) (t : Option String)
        (w : Option WeatherDict),
      display_image sys c t w = some (generate_table sys c w)) ∧
    (∀ (sys : Sys) (c : Option Img) (w : Option WeatherDict),
      isQuantRoot (generate_table sys c w) = false) ∧
    (∀ (sd : List StockRec) (i : Img),
      generate_stock_image sd = .ok (some i) → isQuantRoot i = true) ∧
    (∀ (sys : Sys) (n : Option NewsRec) (i : Img),
      generate_news_image sys n = .ok (some i) → isQuantRoot i = true) ∧
    (∀ (sys : Sys) (wd : WeatherDict) (i : Img),
      generate_weather_image sys wd = .ok (some i) → isQuantRoot i = true) ∧
    (∀ (sys : Sys) (cfg : Config) (env : Env) (st : SchedState)
        (t : TickOut) (id wph hph : Nat),
      (display_modes cfg).getD st.current_mode_index "" = "image" →
      env.photo = some (.raw id wph hph) →
      main_loop_step sys cfg env st = .ok t →
      ∃ f, t.sent = some f ∧ hasQuant f = false) := by
  refine ⟨fun _ _ _ _ => rfl, generate_table_notQuantRoot,
    generate_stock_image_quantRoot, generate_news_image_quantRoot,
    generate_weather_image_quantRoot, ?_⟩
  intro sys cfg env st t id wph hph hmode hph2 hstep
  have hs : ¬((display_modes cfg).getD st.current_mode_index "" = "stock" ∧
      cfg.ENABLE_STOCKS = true ∧ stockCrash env = true) := by
    intro hc
    rw [hmode] at hc
    exact absurd hc.1 (by decide)
  have hn : ¬((display_modes cfg).getD st.current_mode_index "" = "news" ∧
      cfg.ENABLE_NEWS = true ∧ newsCrash sys env.news = true) := by
    intro hc
    rw [hmode] at hc
    exact absurd hc.1 (by decide)
  have hw2 : ¬((display_modes cfg).getD st.current_mode_index "" =
      "weather" ∧ cfg.ENABLE_WEATHER = true ∧
      weatherCrash env.weather = true) := by
    intro hc
    rw [hmode] at hc
    exact absurd hc.1 (by decide)
  obtain ⟨r, hr⟩ := fetch_ok_of sys cfg env
    ((display_modes cfg).getD st.current_mode_index "") hs hn hw2
  have hstep2 := main_loop_step_ok_of_fetch sys cfg env st r hr
  rw [hstep] at hstep2
  cases hstep2
  rw [hmode] at hr
  have hrval : r = .pair (some (Img.raw id wph hph)) (some "image") ∨
      r = .pair none none := by
    by_cases hei : cfg.ENABLE_IMAGES = true
    · left
      have : fetch_and_prepare_content sys cfg env "image" =
          .ok (.pair (some (Img.raw id wph hph)) (some "image")) := by
        simp [fetch_and_prepare_content, hph2, hei, pure, Except.pure]
      rw [this] at hr
      cases hr
      rfl
    · right
      have : fetch_and_prepare_content sys cfg env "image" =
          .ok (.pair none none) := by
        simp [fetch_and_prepare_content, hei, pure, Except.pure]
      rw [this] at hr
      cases hr
      rfl
  have hsent : ∀ (c : Option Img) (ty : Option String), r = .pair c ty →
      (tickOf sys cfg st r).sent =
        some (generate_table sys c
          (if cfg.ENABLE_WEATHER then st.weather_data else none)) := by
    intro c ty hrp
    subst hrp
    rfl
  rcases hrval with hrp | hrp
  · refine ⟨generate_table sys (some (Img.raw id wph hph))
      (if cfg.ENABLE_WEATHER then st.weather_data else none),
      hsent _ _ hrp, ?_⟩
    refine generate_table_noQuant sys _ _ ?_
    intro i hi
    cases hi
    rfl
  · refine ⟨generate_table sys none
      (if cfg.ENABLE_WEATHER then st.weather_data else none),
      hsent _ _ hrp, ?_⟩
    refine generate_table_noQuant sys _ _ ?_
    intro i hi
    cases hi

end InfoHUD
